import Mathlib

/-
Shallow embedding of kimghw/GraphAPIQuery_rev3.

Each definition mirrors one Python function of the repository:
database repositories (src/adapters/db/repositories.py) become pure
state-passing functions over in-memory row lists, use cases
(src/core/usecases/auth_usecases.py, src/core/usecases/mail_usecases.py)
thread that state, and the external OAuth / Graph / forwarding ports are
oracles supplied through environment records.  Timestamps are plain Nat
ticks; Python exceptions are Except results.
-/

namespace GraphAPIQuery

/-- core/domain/entities.py AuthenticationFlow. -/
inductive AuthenticationFlow where
  | authorization_code
  | device_code
deriving DecidableEq

/-- core/domain/entities.py TokenStatus. -/
inductive TokenStatus where
  | valid
  | expired
  | revoked
  | invalid
deriving DecidableEq

/-- core/domain/entities.py MailDirection. -/
inductive MailDirection where
  | sent
  | received
  | both
deriving DecidableEq

/-- core/domain/entities.py Account (fields used by the orchestrators). -/
structure Account where
  id : String
  email : String
  user_id : String
  tenant_id : String
  client_id : String
  authentication_flow : AuthenticationFlow
  scopes : List String
  last_authenticated_at : Option Nat
deriving DecidableEq

/-- core/domain/entities.py AuthorizationCodeAccount. -/
structure AuthorizationCodeAccount where
  account_id : String
  client_secret : String
  redirect_uri : String
  authority : String
deriving DecidableEq

/-- core/domain/entities.py DeviceCodeAccount. -/
structure DeviceCodeAccount where
  account_id : String
  device_code : Option String
  user_code : Option String
  verification_uri : Option String
  expires_in : Option Nat
  interval : Option Nat
deriving DecidableEq

/-- core/domain/entities.py Token. -/
structure Token where
  account_id : String
  access_token : String
  refresh_token : Option String
  token_type : String
  expires_at : Nat
  scopes : List String
  status : TokenStatus
deriving DecidableEq

/-- Token.is_expired: datetime.utcnow() >= expires_at. -/
def Token.is_expired (t : Token) (now : Nat) : Bool :=
  t.expires_at ≤ now

/-- core/domain/entities.py AuthenticationLog. -/
structure AuthenticationLog where
  account_id : String
  event_type : String
  authentication_flow : AuthenticationFlow
  success : Bool
  error_code : Option String
  error_message : Option String
deriving DecidableEq

/-- core/domain/entities.py MailMessage (fields populated by _create_mail_message). -/
structure MailMessage where
  message_id : String
  internet_message_id : Option String
  account_id : String
  subject : String
  sender_email : String
  is_read : Bool
  has_attachments : Bool
  direction : MailDirection
  categories : List String
deriving DecidableEq

/-- core/domain/entities.py MailQueryHistory (fields written by _log_query_history). -/
structure MailQueryHistory where
  account_id : String
  query_type : String
  messages_found : Nat
  new_messages : Nat
  success : Bool
deriving DecidableEq

/-- core/domain/entities.py DeltaLink. -/
structure DeltaLink where
  account_id : String
  folder_id : String
  delta_token : String
  created_at : Nat
  last_used_at : Option Nat
  is_active : Bool
deriving DecidableEq

/-- core/domain/entities.py WebhookSubscription (fields used when handling notifications). -/
structure WebhookSubscription where
  subscription_id : String
  account_id : String
  client_state : String
  is_active : Bool
deriving DecidableEq

/-- core/domain/entities.py ExternalAPICall; call_id models the autoincrement row id. -/
structure ExternalAPICall where
  call_id : Nat
  message_id : String
  endpoint_url : String
  http_method : String
  response_status : Option Nat
  success : Bool
  retry_count : Nat
  completed : Bool
deriving DecidableEq

/-- A message as returned in the Graph API response value array. -/
structure GraphMessage where
  id : String
  internetMessageId : Option String
  subject : String
  senderEmail : String
  isRead : Bool
  hasAttachments : Bool
  categories : List String
deriving DecidableEq

/-- @odata.deltaLink bearing response of the Graph delta endpoint. -/
structure DeltaResponse where
  value : List GraphMessage
  deltaLinkUrl : Option String
deriving DecidableEq

/-- The mail-side persistent state: row tables touched by MailUseCases. -/
structure MailDB where
  mails : List MailMessage
  deltaLinks : List DeltaLink
  queryHistories : List MailQueryHistory
  apiCalls : List ExternalAPICall
  webhooks : List WebhookSubscription
  nextApiCallId : Nat
deriving DecidableEq

/-- MailRepository.mail_exists: existence check by (message_id, account_id). -/
def mail_exists (db : MailDB) (message_id account_id : String) : Bool :=
  db.mails.any (fun m => m.message_id == message_id && m.account_id == account_id)

/-- MailRepository.save_mail_message: plain insert. -/
def save_mail_message (db : MailDB) (m : MailMessage) : MailDB :=
  { db with mails := db.mails ++ [m] }

/-- MailRepository.get_mail_by_message_id: lookup by message_id only. -/
def get_mail_by_message_id (db : MailDB) (message_id : String) : Option MailMessage :=
  db.mails.find? (fun m => m.message_id == message_id)

/-- DeltaLinkRepository.save_delta_link: deactivate all active links of the same
(account_id, folder_id) pair, then insert the new row, in one operation. -/
def save_delta_link (db : MailDB) (dl : DeltaLink) : MailDB :=
  { db with deltaLinks :=
      db.deltaLinks.map (fun e =>
        if e.account_id == dl.account_id && e.folder_id == dl.folder_id && e.is_active
        then { e with is_active := false } else e) ++ [dl] }

/-- DeltaLinkRepository.get_delta_link: the active link of the pair. -/
def get_delta_link (db : MailDB) (account_id folder_id : String) : Option DeltaLink :=
  db.deltaLinks.find? (fun e =>
    e.account_id == account_id && e.folder_id == folder_id && e.is_active)

/-- WebhookRepository.get_webhook_subscription. -/
def get_webhook_subscription (db : MailDB) (subscription_id : String) :
    Option WebhookSubscription :=
  db.webhooks.find? (fun w => w.subscription_id == subscription_id)

/-- MailQueryHistoryRepository.save_query_history via _log_query_history
(which always records success=True and swallows its own failures). -/
def log_query_history (db : MailDB) (account_id query_type : String)
    (messages_found new_messages : Nat) : MailDB :=
  { db with queryHistories := db.queryHistories ++
      [{ account_id := account_id, query_type := query_type,
         messages_found := messages_found, new_messages := new_messages,
         success := true }] }

/-- MailUseCases._create_mail_message: map a Graph payload to a MailMessage row. -/
def create_mail_message (msg : GraphMessage) (account_id : String)
    (direction : MailDirection) : MailMessage :=
  { message_id := msg.id,
    internet_message_id := msg.internetMessageId,
    account_id := account_id,
    subject := msg.subject,
    sender_email := msg.senderEmail,
    is_read := msg.isRead,
    has_attachments := msg.hasAttachments,
    direction := direction,
    categories := msg.categories }

/-- External forwarding configuration and the forwarding port outcome oracle:
sendResult gives, per message_id, the downstream status code or a raised error. -/
structure ExternalApiEnv where
  endpoint : Option String
  sendResult : String → Except String Nat

/-- MailUseCases._send_to_external_api: records one ExternalAPICall row per newly
stored message; a dispatch failure is recorded on the row, never re-raised. -/
def send_to_external_api (env : ExternalApiEnv) (db : MailDB) (m : MailMessage) : MailDB :=
  match env.endpoint with
  | none => db
  | some url =>
    let base : ExternalAPICall :=
      { call_id := db.nextApiCallId, message_id := m.message_id, endpoint_url := url,
        http_method := "POST", response_status := none, success := false,
        retry_count := 0, completed := true }
    let row := match env.sendResult m.message_id with
      | .ok status => { base with success := true, response_status := some status }
      | .error _ => base
    { db with apiCalls := db.apiCalls ++ [row], nextApiCallId := db.nextApiCallId + 1 }

/-- Environment of one mail use-case invocation: the account/token tables read
through the persistence port, the clock, and the Graph client oracles. -/
structure MailEnv where
  accounts : List Account
  tokens : List Token
  now : Nat
  graphMessages : String → List GraphMessage
  graphDelta : String → Option String → DeltaResponse
  ext : ExternalApiEnv

/-- TokenRepository.get_token_by_account_id as read by the mail use cases. -/
def find_token (tokens : List Token) (account_id : String) : Option Token :=
  tokens.find? (fun t => t.account_id == account_id)

/-- Body of the per-message loop of MailUseCases.query_mails: check existence by
(account_id, message_id); insert and forward when new, otherwise return the
row found by message_id as-is. -/
def process_query_message (ext : ExternalApiEnv) (account_id : String)
    (direction : MailDirection) (st : MailDB × List MailMessage × Nat)
    (msg : GraphMessage) : MailDB × List MailMessage × Nat :=
  let (db, collected, newCount) := st
  if mail_exists db msg.id account_id then
    match get_mail_by_message_id db msg.id with
    | some m => (db, collected ++ [m], newCount)
    | none => (db, collected, newCount)
  else
    let m := create_mail_message msg account_id direction
    let db := save_mail_message db m
    let db := send_to_external_api ext db m
    (db, collected ++ [m], newCount + 1)

/-- Per-account body of MailUseCases.query_mails: skip accounts without a valid
token, process the Graph response, then log one MailQueryHistory row. -/
def query_account (env : MailEnv) (direction : MailDirection) (db : MailDB)
    (acct : Account) : MailDB × List MailMessage × Nat :=
  match find_token env.tokens acct.id with
  | none => (db, [], 0)
  | some t =>
    if t.is_expired env.now then (db, [], 0)
    else
      let msgs := env.graphMessages acct.id
      let (db, collected, newCount) :=
        msgs.foldl (process_query_message env.ext acct.id direction) (db, [], 0)
      let db := log_query_history db acct.id "manual" msgs.length newCount
      (db, collected, newCount)

/-- MailUseCases.query_mails: one account when account_id is given (error when
unknown), else all accounts. -/
def query_mails (env : MailEnv) (account_id : Option String)
    (direction : MailDirection) (db : MailDB) :
    MailDB × Except String (List MailMessage × Nat) :=
  match account_id with
  | some aid =>
    match env.accounts.find? (fun a => a.id == aid) with
    | none => (db, .error "Account not found")
    | some a =>
      let (db, ms, n) := query_account env direction db a
      (db, .ok (ms, n))
  | none =>
    let (db, ms, n) := env.accounts.foldl
      (fun (st : MailDB × List MailMessage × Nat) a =>
        let (db, ms, n) := st
        let (db, ms2, n2) := query_account env direction db a
        (db, ms ++ ms2, n + n2))
      (db, [], 0)
    (db, .ok (ms, n))

/-- Python str.split(sep) over character lists, with explicit fuel so the
definition is structurally recursive and kernel-evaluable. -/
def pySplitAux (sep : List Char) : Nat → List Char → List Char → List (List Char)
  | 0, s, acc => [acc.reverse ++ s]
  | fuel + 1, s, acc =>
    match s with
    | [] => [acc.reverse]
    | c :: rest =>
      if sep.isPrefixOf (c :: rest) then
        acc.reverse :: pySplitAux sep fuel (List.drop sep.length (c :: rest)) []
      else pySplitAux sep fuel rest (c :: acc)

/-- Python str.split(sep) on strings. -/
def pySplit (s sep : String) : List String :=
  (pySplitAux sep.data (s.data.length + 1) s.data []).map (fun l => String.mk l)

/-- MailUseCases._extract_delta_token: take the piece after the first
deltatoken= marker and before the next ampersand. -/
def extract_delta_token (resp : DeltaResponse) : Option String :=
  match resp.deltaLinkUrl with
  | none => none
  | some url =>
    let parts := pySplit url "$deltatoken="
    if 2 ≤ parts.length then
      some ((pySplit ((parts.get? 1).getD "") "&").headD "")
    else none

/-- Body of the per-message loop of MailUseCases.sync_delta_mails: identical
dedup check; existing messages are not touched. -/
def process_delta_message (ext : ExternalApiEnv) (account_id : String)
    (st : MailDB × Nat) (msg : GraphMessage) : MailDB × Nat :=
  let (db, newCount) := st
  if mail_exists db msg.id account_id then (db, newCount)
  else
    let m := create_mail_message msg account_id MailDirection.received
    let db := save_mail_message db m
    let db := send_to_external_api ext db m
    (db, newCount + 1)

/-- Per-account body of MailUseCases.sync_delta_mails: read the active delta
link, call the delta endpoint with its token, dedup-insert the messages, save
the new delta link when one is returned, log one history row. -/
def sync_account (env : MailEnv) (folder : String) (db : MailDB)
    (acct : Account) : MailDB × Nat :=
  match find_token env.tokens acct.id with
  | none => (db, 0)
  | some t =>
    if t.is_expired env.now then (db, 0)
    else
      let deltaTok := (get_delta_link db acct.id folder).map (fun dl => dl.delta_token)
      let resp := env.graphDelta acct.id deltaTok
      let (db, newCount) :=
        resp.value.foldl (process_delta_message env.ext acct.id) (db, 0)
      let db := match extract_delta_token resp with
        | some tok => save_delta_link db
            { account_id := acct.id, folder_id := folder, delta_token := tok,
              created_at := env.now, last_used_at := some env.now, is_active := true }
        | none => db
      let db := log_query_history db acct.id "delta" resp.value.length newCount
      (db, newCount)

/-- MailUseCases.sync_delta_mails: one account when account_id is given (error
when unknown), else all accounts. -/
def sync_delta_mails (env : MailEnv) (account_id : Option String) (folder : String)
    (db : MailDB) : MailDB × Except String Nat :=
  match account_id with
  | some aid =>
    match env.accounts.find? (fun a => a.id == aid) with
    | none => (db, .error "Account not found")
    | some a =>
      let (db, n) := sync_account env folder db a
      (db, .ok n)
  | none =>
    let (db, n) := env.accounts.foldl
      (fun (st : MailDB × Nat) a =>
        let (db, n) := st
        let (db, n2) := sync_account env folder db a
        (db, n + n2))
      (db, 0)
    (db, .ok n)

/-- One item of the notification value array of a webhook POST body. -/
structure NotificationItem where
  subscriptionId : String
  resource : String
  changeType : String
deriving DecidableEq

/-- The webhook notification body as read by process_webhook_notification. -/
structure NotificationData where
  clientState : Option String
  value : List NotificationItem
deriving DecidableEq

/-- The per-item loop of MailUseCases.process_webhook_notification: unknown
subscriptions are skipped, known ones trigger sync_delta_mails for the owning
account; an error raised by the sync aborts the loop. -/
def process_notification_items (env : MailEnv) (db : MailDB) :
    List NotificationItem → Nat → MailDB × Except String Nat
  | [], processed => (db, .ok processed)
  | item :: rest, processed =>
    match get_webhook_subscription db item.subscriptionId with
    | none => process_notification_items env db rest processed
    | some sub =>
      match sync_delta_mails env (some sub.account_id) "Inbox" db with
      | (db, .ok _) => process_notification_items env db rest (processed + 1)
      | (db, .error e) => (db, .error e)

/-- MailUseCases.process_webhook_notification: only the presence of a non-empty
clientState is checked (Python truthiness); the value is never compared with
the stored subscription clientState before the delta sync is triggered. -/
def process_webhook_notification (env : MailEnv) (db : MailDB)
    (nd : NotificationData) : MailDB × Except String Nat :=
  match nd.clientState with
  | none => (db, .error "Missing client state")
  | some cs =>
    if cs = "" then (db, .error "Missing client state")
    else process_notification_items env db nd.value 0

/-- One orchestrator-level mail call, carrying the ports environment it was
invoked with; used to state invariants over arbitrary call sequences. -/
inductive MailCall where
  | queryCall (env : MailEnv) (account_id : Option String) (direction : MailDirection)
  | deltaCall (env : MailEnv) (account_id : Option String) (folder : String)

/-- State effect of one mail call. -/
def runMailCall (db : MailDB) : MailCall → MailDB
  | .queryCall env aid dir => (query_mails env aid dir db).1
  | .deltaCall env aid folder => (sync_delta_mails env aid folder db).1

/-- State effect of a sequence of query_mails / sync_delta_mails calls. -/
def runMailCalls (calls : List MailCall) (db : MailDB) : MailDB :=
  calls.foldl runMailCall db

/-- The (account_id, message_id) composite keys of the stored mail rows. -/
def mailKeys (db : MailDB) : List (String × String) :=
  db.mails.map (fun m => (m.account_id, m.message_id))

/-- Dedup invariant: no two MailMessage rows share (account_id, message_id). -/
def MailDedupInv (db : MailDB) : Prop :=
  (mailKeys db).Nodup

/-- Number of stored MailMessage rows for one (account, message) pair. -/
def mailRowCount (db : MailDB) (account_id message_id : String) : Nat :=
  (db.mails.filter (fun m =>
    m.account_id == account_id && m.message_id == message_id)).length

/-- The (account_id, folder_id) keys of the active delta links. -/
def activeDeltaKeys (db : MailDB) : List (String × String) :=
  (db.deltaLinks.filter (fun e => e.is_active)).map
    (fun e => (e.account_id, e.folder_id))

/-- Delta-link invariant: at most one active link per (account_id, folder_id). -/
def DeltaActiveInv (db : MailDB) : Prop :=
  (activeDeltaKeys db).Nodup

/-- Number of active DeltaLink rows for one (account, folder) pair. -/
def activeDeltaCount (db : MailDB) (account_id folder_id : String) : Nat :=
  (db.deltaLinks.filter (fun e =>
    e.account_id == account_id && e.folder_id == folder_id && e.is_active)).length

/-- The auth-side persistent state: row tables touched by AuthenticationUseCases. -/
structure AuthDB where
  accounts : List Account
  authCodeAccounts : List AuthorizationCodeAccount
  deviceCodeAccounts : List DeviceCodeAccount
  tokens : List Token
  authLogs : List AuthenticationLog
deriving DecidableEq

/-- The token material dict returned by the OAuth client port. -/
structure TokenData where
  access_token : String
  refresh_token : Option String
  token_type : Option String
  expires_in : Option Nat
  scope : Option String
deriving DecidableEq

/-- Environment of one auth use-case invocation: Microsoft Graph configuration,
the OAuth client port oracles, whether the audit-log insert succeeds, the
fresh uuid for registration, and the clock. -/
structure AuthEnv where
  logSaveOk : Bool
  tenant_id : String
  client_id : String
  client_secret : String
  redirect_uri : String
  authority : String
  freshAccountId : String
  authUrlResult : Except String (String × String)
  exchangeResult : String → Except String TokenData
  refreshResult : String → Except String TokenData
  revokeResult : String → Except String Bool
  now : Nat

/-- AccountRepository.get_account_by_id. -/
def get_account_by_id (db : AuthDB) (account_id : String) : Option Account :=
  db.accounts.find? (fun a => a.id == account_id)

/-- TokenRepository.get_token_by_account_id. -/
def get_token_by_account_id (db : AuthDB) (account_id : String) : Option Token :=
  db.tokens.find? (fun t => t.account_id == account_id)

/-- TokenRepository.delete_token. -/
def delete_token (db : AuthDB) (account_id : String) : AuthDB :=
  { db with tokens := db.tokens.filter (fun t => !(t.account_id == account_id)) }

/-- AccountRepository.update_account: overwrite the row with matching id. -/
def update_account (db : AuthDB) (a : Account) : AuthDB :=
  { db with accounts := db.accounts.map (fun e => if e.id == a.id then a else e) }

/-- TokenRepository.save_token: update the existing row of the account
(overwriting access_token, refresh_token, token_type, expires_at, scopes and
status) or insert a new one. -/
def save_token (db : AuthDB) (t : Token) : AuthDB :=
  if db.tokens.any (fun e => e.account_id == t.account_id) then
    { db with tokens := db.tokens.map (fun e =>
        if e.account_id == t.account_id then
          { e with access_token := t.access_token, refresh_token := t.refresh_token,
                   token_type := t.token_type, expires_at := t.expires_at,
                   scopes := t.scopes, status := t.status }
        else e) }
  else { db with tokens := db.tokens ++ [t] }

/-- AuthenticationUseCases._save_token: build the Token entity from the raw
token material (refresh_token is taken from the dict, None when absent) and
persist it through TokenRepository.save_token. -/
def build_token (now : Nat) (account_id : String) (td : TokenData) : Token :=
  { account_id := account_id,
    access_token := td.access_token,
    refresh_token := td.refresh_token,
    token_type := td.token_type.getD "Bearer",
    expires_at := now + td.expires_in.getD 3600,
    scopes := match td.scope with
      | some s => if s = "" then [] else pySplit s " "
      | none => [],
    status := TokenStatus.valid }

/-- AuthenticationUseCases._log_auth_event: append one AuthenticationLog row;
a failure of the log repository is caught and swallowed (state unchanged). -/
def log_auth_event (env : AuthEnv) (db : AuthDB) (account_id event_type : String)
    (flow : Option AuthenticationFlow) (success : Bool)
    (error_message : Option String) : AuthDB :=
  if env.logSaveOk then
    { db with authLogs := db.authLogs ++
        [{ account_id := account_id, event_type := event_type,
           authentication_flow := flow.getD AuthenticationFlow.authorization_code,
           success := success, error_code := none,
           error_message := error_message }] }
  else db

/-- AuthenticationUseCases.register_account: duplicate email raises without any
log row; otherwise the Account plus its flow-specific row are created and one
successful registration event is logged. -/
def register_account (env : AuthEnv) (db : AuthDB) (email user_id : String)
    (flow : AuthenticationFlow) (scopes : List String) :
    AuthDB × Except String String :=
  if db.accounts.any (fun a => a.email == email) then
    (db, .error "Account with email already exists")
  else
    let account : Account :=
      { id := env.freshAccountId, email := email, user_id := user_id,
        tenant_id := env.tenant_id, client_id := env.client_id,
        authentication_flow := flow, scopes := scopes,
        last_authenticated_at := none }
    let db := { db with accounts := db.accounts ++ [account] }
    let db := match flow with
      | .authorization_code =>
          { db with authCodeAccounts := db.authCodeAccounts ++
              [{ account_id := account.id, client_secret := env.client_secret,
                 redirect_uri := env.redirect_uri, authority := env.authority }] }
      | .device_code =>
          { db with deviceCodeAccounts := db.deviceCodeAccounts ++
              [{ account_id := account.id, device_code := none, user_code := none,
                 verification_uri := none, expires_in := none, interval := none }] }
    let db := log_auth_event env db account.id "registration" (some flow) true none
    (db, .ok account.id)

/-- Outcome payload of authenticate_account. -/
inductive AuthOutcome where
  | requiresUserAction (kind : String)
  | completed
deriving DecidableEq

/-- AuthenticationUseCases.refresh_token.  With an unknown account the except
handler evaluates account.authentication_flow on the assigned None and itself
raises AttributeError, so no log row is written; the known-account failure
paths log one failed token_refresh event; the success path saves the new token
and logs one successful event. -/
def refresh_token (env : AuthEnv) (db : AuthDB) (account_id : String) :
    AuthDB × Except String Unit :=
  match get_account_by_id db account_id with
  | none => (db, .error "AttributeError")
  | some account =>
    match get_token_by_account_id db account_id with
    | none =>
      (log_auth_event env db account_id "token_refresh"
        (some account.authentication_flow) false (some "No refresh token available"),
       .error "No refresh token available")
    | some token =>
      match token.refresh_token with
      | none =>
        (log_auth_event env db account_id "token_refresh"
          (some account.authentication_flow) false (some "No refresh token available"),
         .error "No refresh token available")
      | some rt =>
        match env.refreshResult rt with
        | .error e =>
          (log_auth_event env db account_id "token_refresh"
            (some account.authentication_flow) false (some e),
           .error e)
        | .ok td =>
          let db := save_token db (build_token env.now account_id td)
          let db := log_auth_event env db account_id "token_refresh"
            (some account.authentication_flow) true none
          (db, .ok ())

/-- AuthenticationUseCases.revoke_token.  Unknown account: the except handler
itself raises (no log).  No stored token: the upstream call and the local
delete are both skipped and a successful logout is logged.  Stored token: the
upstream revoke is called without any try block, so when it raises the local
delete never runs, one failed logout is logged and the error re-raised; only
when it returns is the local token deleted. -/
def revoke_token (env : AuthEnv) (db : AuthDB) (account_id : String) :
    AuthDB × Except String Unit :=
  match get_account_by_id db account_id with
  | none => (db, .error "AttributeError")
  | some account =>
    match get_token_by_account_id db account_id with
    | none =>
      let db := log_auth_event env db account_id "logout"
        (some account.authentication_flow) true none
      (db, .ok ())
    | some token =>
      match env.revokeResult token.access_token with
      | .error e =>
        (log_auth_event env db account_id "logout"
          (some account.authentication_flow) false (some e),
         .error e)
      | .ok _ =>
        let db := delete_token db account_id
        let db := log_auth_event env db account_id "logout"
          (some account.authentication_flow) true none
        (db, .ok ())

/-- AuthenticationUseCases.authenticate_account with its flow-specific helpers
inlined.  Unknown account: the except handler itself raises (no log row).
Authorization-code flow without a code: the authorization URL is returned with
no log row.  With a code: the exchange either saves the token, stamps
last_authenticated_at and logs one success, or logs one failure and re-raises.
Device-code flow: initiation stores placeholder device data with no log row;
polling uses the placeholder token material and always succeeds, saving the
token and logging one success. -/
def authenticate_account (env : AuthEnv) (db : AuthDB) (account_id : String)
    (authorization_code : Option String) (poll : Bool) :
    AuthDB × Except String AuthOutcome :=
  match get_account_by_id db account_id with
  | none => (db, .error "AttributeError")
  | some account =>
    match account.authentication_flow with
    | .authorization_code =>
      match db.authCodeAccounts.find? (fun a => a.account_id == account.id) with
      | none =>
        (log_auth_event env db account_id "authentication"
          (some account.authentication_flow) false
          (some "Authorization code account data not found"),
         .error "Authorization code account data not found")
      | some _ =>
        match authorization_code with
        | none =>
          match env.authUrlResult with
          | .error e =>
            (log_auth_event env db account_id "authentication"
              (some account.authentication_flow) false (some e),
             .error e)
          | .ok _ => (db, .ok (AuthOutcome.requiresUserAction "authorization_url"))
        | some code =>
          match env.exchangeResult code with
          | .error e =>
            (log_auth_event env db account_id "authentication"
              (some account.authentication_flow) false (some e),
             .error e)
          | .ok td =>
            let db := save_token db (build_token env.now account.id td)
            let db := update_account db
              { account with last_authenticated_at := some env.now }
            let db := log_auth_event env db account.id "authentication"
              (some account.authentication_flow) true none
            (db, .ok AuthOutcome.completed)
    | .device_code =>
      match db.deviceCodeAccounts.find? (fun d => d.account_id == account.id) with
      | none =>
        (log_auth_event env db account_id "authentication"
          (some account.authentication_flow) false
          (some "Device code account data not found"),
         .error "Device code account data not found")
      | some deviceData =>
        if !poll then
          let updatedDevices := db.deviceCodeAccounts.map (fun d =>
            if d.account_id == account.id then
              { d with device_code := some "placeholder_device_code",
                       user_code := some "ABCD1234",
                       verification_uri := some "https://microsoft.com/devicelogin",
                       expires_in := some 900, interval := some 5 }
            else d)
          let db := { db with deviceCodeAccounts := updatedDevices }
          (db, .ok (AuthOutcome.requiresUserAction "device_code"))
        else
          match deviceData.device_code with
          | none =>
            (log_auth_event env db account_id "authentication"
              (some account.authentication_flow) false
              (some "Device code not initialized. Start authentication first."),
             .error "Device code not initialized. Start authentication first.")
          | some _ =>
            let td : TokenData :=
              { access_token := "placeholder_access_token",
                refresh_token := some "placeholder_refresh_token",
                token_type := none, expires_in := some 3600,
                scope := some (String.intercalate " " account.scopes) }
            let db := save_token db (build_token env.now account.id td)
            let db := update_account db
              { account with last_authenticated_at := some env.now }
            let db := log_auth_event env db account.id "authentication"
              (some account.authentication_flow) true none
            (db, .ok AuthOutcome.completed)

/-- The non-audit part of the auth state, used to show that an audit-write
failure changes nothing else. -/
def AuthDB.core (db : AuthDB) :
    List Account × List AuthorizationCodeAccount × List DeviceCodeAccount × List Token :=
  (db.accounts, db.authCodeAccounts, db.deviceCodeAccounts, db.tokens)

/-- The Fernet cipher of core/security/token_encryption.py, abstracted at the
library boundary: enc maps a plaintext to ciphertext bytes, dec returns none
when the authenticated decryption detects an invalid or tampered token.
Bytes are modelled as lists of characters. -/
structure FernetCipher where
  enc : String → List Char
  dec : List Char → Option String

/-- The urlsafe base64 codec used around the Fernet calls, abstracted at the
library boundary: decode returns none when the input is not valid base64. -/
structure Base64Codec where
  encode : List Char → String
  decode : String → Option (List Char)

/-- TokenEncryption.encrypt_token: empty input is passed through as the empty
string; otherwise the Fernet ciphertext is base64-encoded.  A failure inside
the cipher would surface as an ENCRYPTION_ERROR SystemException. -/
def encrypt_token (f : FernetCipher) (b : Base64Codec) (token : String) :
    Except String String :=
  if token = "" then .ok ""
  else .ok (b.encode (f.enc token))

/-- TokenEncryption.decrypt_token: empty input is passed through; otherwise
base64-decode then Fernet-decrypt, and any failure of either step is raised as
a DECRYPTION_ERROR SystemException instead of returning garbage. -/
def decrypt_token (f : FernetCipher) (b : Base64Codec) (encrypted_token : String) :
    Except String String :=
  if encrypted_token = "" then .ok ""
  else
    match b.decode encrypted_token with
    | none => .error "DECRYPTION_ERROR"
    | some bytes =>
      match f.dec bytes with
      | none => .error "DECRYPTION_ERROR"
      | some plain => .ok plain

/-- ExternalAPIRepository.get_failed_api_calls: rows with success == False and
retry_count < 3 (the limit is hard-coded in the repository query). -/
def get_failed_api_calls (calls : List ExternalAPICall) : List ExternalAPICall :=
  calls.filter (fun c => !c.success && decide (c.retry_count < 3))

/-- Modelled from the spec: MailUseCases.get_failed_api_calls_for_retry is
called by BackgroundTaskService._failed_api_retry_task but is absent from the
source tree.  The spec requires the sweep to find ExternalAPICall rows with
success=false and retry_count < max, which ExternalAPIRepository
.get_failed_api_calls implements with max = 3; this definition delegates to
that repository query. -/
def get_failed_api_calls_for_retry (db : MailDB) : List ExternalAPICall :=
  get_failed_api_calls db.apiCalls

/-- The updated form of a retried ExternalAPICall row: retry_count incremented,
success recording the outcome of the new dispatch attempt. -/
def retried_row (outcome : Nat → Bool) (c : ExternalAPICall) : ExternalAPICall :=
  { c with retry_count := c.retry_count + 1, success := outcome c.call_id,
           completed := true }

/-- The repository eligibility predicate of get_failed_api_calls. -/
def eligible_for_retry (c : ExternalAPICall) : Bool :=
  !c.success && decide (c.retry_count < 3)

/-- Modelled from the spec: MailUseCases.retry_failed_api_call is absent from
the source tree.  The spec requires the sweep to retry each found row,
incrementing retry_count; the retried row records the outcome of the new
dispatch attempt and is never deleted. -/
def retry_failed_api_call (outcome : Nat → Bool) (db : MailDB) (call_id : Nat) :
    MailDB :=
  { db with apiCalls := db.apiCalls.map (fun c =>
      if c.call_id == call_id then retried_row outcome c else c) }

/-- Counters reported by the retry sweep. -/
structure RetryStats where
  succeeded : Nat
  failed : Nat
  skipped : Nat
deriving DecidableEq

/-- One iteration of the loop body of
BackgroundTaskService._failed_api_retry_task: rows whose retry_count already
reached 5 are skipped, every other fetched row is retried. -/
def retry_sweep_step (outcome : Nat → Bool) (st : MailDB × RetryStats)
    (c : ExternalAPICall) : MailDB × RetryStats :=
  let (db, stats) := st
  if 5 ≤ c.retry_count then (db, { stats with skipped := stats.skipped + 1 })
  else (retry_failed_api_call outcome db c.call_id,
        { stats with succeeded := stats.succeeded + 1 })

/-- BackgroundTaskService._failed_api_retry_task: fetch the failed calls and
run the retry loop over them. -/
def failed_api_retry_task (outcome : Nat → Bool) (db : MailDB) :
    MailDB × RetryStats :=
  (get_failed_api_calls_for_retry db).foldl (retry_sweep_step outcome)
    (db, { succeeded := 0, failed := 0, skipped := 0 })

/-- Sequential application of retry_failed_api_call to a list of row ids;
proof-side normal form of the retry loop. -/
def applyRetrySeq (outcome : Nat → Bool) (ids : List Nat) (db : MailDB) : MailDB :=
  ids.foldl (retry_failed_api_call outcome) db

/-- Empty mail-side state. -/
def emptyMailDB : MailDB :=
  { mails := [], deltaLinks := [], queryHistories := [], apiCalls := [],
    webhooks := [], nextApiCallId := 0 }

/-- Sample registered account. -/
def acctA : Account :=
  { id := "a1", email := "a@x.com", user_id := "u1", tenant_id := "t1",
    client_id := "c1", authentication_flow := AuthenticationFlow.authorization_code,
    scopes := ["Mail.Read"], last_authenticated_at := none }

/-- Sample valid token of acctA, holding a refresh token. -/
def validTok : Token :=
  { account_id := "a1", access_token := "at-1", refresh_token := some "rt-old",
    token_type := "Bearer", expires_at := 100, scopes := [],
    status := TokenStatus.valid }

/-- Sample upstream message. -/
def gm1 : GraphMessage :=
  { id := "m1", internetMessageId := none, subject := "hello",
    senderEmail := "s@y.com", isRead := false, hasAttachments := false,
    categories := [] }

/-- Sample mail environment: one account with a valid token; the Graph query
endpoint returns the same message twice, the delta endpoint returns it once
together with a fresh delta token. -/
def mailEnv1 : MailEnv :=
  { accounts := [acctA], tokens := [validTok], now := 0,
    graphMessages := fun _ => [gm1, gm1],
    graphDelta := fun _ _ =>
      { value := [gm1],
        deltaLinkUrl := some "https://graph.example/delta?$deltatoken=tok1&a=b" },
    ext := { endpoint := none, sendResult := fun _ => Except.ok 200 } }

/-- Mail state holding one active webhook subscription with a stored
client_state. -/
def webhookDB : MailDB :=
  { emptyMailDB with webhooks :=
      [{ subscription_id := "sub1", account_id := "a1",
         client_state := "stored-state", is_active := true }] }

/-- A notification whose clientState does not match the stored value. -/
def mismatchNotification : NotificationData :=
  { clientState := some "wrong-state",
    value := [{ subscriptionId := "sub1", resource := "r", changeType := "created" }] }

/-- Sample auth state: acctA with its auth-code data and validTok. -/
def authDB1 : AuthDB :=
  { accounts := [acctA],
    authCodeAccounts := [{ account_id := "a1", client_secret := "sec",
                           redirect_uri := "https://cb", authority := "https://login" }],
    deviceCodeAccounts := [], tokens := [validTok], authLogs := [] }

/-- Token material of a refresh response that omits the refresh_token field. -/
def tdNoRefresh : TokenData :=
  { access_token := "new-at", refresh_token := none, token_type := none,
    expires_in := some 3600, scope := none }

/-- Auth environment where every upstream call succeeds. -/
def authEnvOk : AuthEnv :=
  { logSaveOk := true, tenant_id := "t1", client_id := "c1", client_secret := "sec",
    redirect_uri := "https://cb", authority := "https://login",
    freshAccountId := "a2",
    authUrlResult := Except.ok ("https://login/authorize", "verifier"),
    exchangeResult := fun _ => Except.ok tdNoRefresh,
    refreshResult := fun _ => Except.ok tdNoRefresh,
    revokeResult := fun _ => Except.ok true, now := 0 }

/-- Auth environment where the upstream refresh and revoke calls raise. -/
def authEnvUpstreamFail : AuthEnv :=
  { authEnvOk with refreshResult := fun _ => Except.error "invalid_grant",
                   revokeResult := fun _ => Except.error "network unreachable" }

/-- A concrete cipher satisfying the Fernet contract, used to witness the
encryption theorems: the ciphertext is the plaintext tagged with a marker
character, and decryption rejects anything not carrying the marker. -/
def toyFernet : FernetCipher :=
  { enc := fun s => 'F' :: s.data,
    dec := fun bs => match bs with
      | 'F' :: rest => some (String.mk rest)
      | _ => none }

/-- A concrete codec satisfying the base64 contract for the witness. -/
def toyBase64 : Base64Codec :=
  { encode := fun bs => String.mk bs,
    decode := fun s => some s.data }

/-- Retry-sweep fixture: one retriable failed row, one failed row at the
retry ceiling, one successful row. -/
def retryDB : MailDB :=
  { emptyMailDB with apiCalls :=
      [{ call_id := 1, message_id := "m1", endpoint_url := "https://fwd",
         http_method := "POST", response_status := none, success := false,
         retry_count := 0, completed := true },
       { call_id := 2, message_id := "m2", endpoint_url := "https://fwd",
         http_method := "POST", response_status := none, success := false,
         retry_count := 3, completed := true },
       { call_id := 3, message_id := "m3", endpoint_url := "https://fwd",
         http_method := "POST", response_status := some 200, success := true,
         retry_count := 0, completed := true }] }

/-- A call sequence in which the same upstream message m1 is delivered twice
inside one query response and once more by a later delta sync. -/
def demoCalls : List MailCall :=
  [MailCall.queryCall mailEnv1 none MailDirection.received,
   MailCall.deltaCall mailEnv1 none "Inbox"]

/-- A fresh active delta link for the pair (a1, Inbox). -/
def dlFix : DeltaLink :=
  { account_id := "a1", folder_id := "Inbox", delta_token := "t0",
    created_at := 0, last_used_at := none, is_active := true }

/-- Claim C8: for every string s, decrypt_token (encrypt_token s) returns s;
encrypt_token of the empty string returns the empty string without error; and
decrypt_token applied to a corrupted or tampered ciphertext (one the
authenticated cipher rejects) raises DECRYPTION_ERROR rather than returning
incorrect plaintext.  The hypotheses state the library contract of the Fernet
cipher and the base64 codec. -/
theorem token_encryption_roundtrip (f : FernetCipher) (b : Base64Codec)
    (hf : ∀ s, f.dec (f.enc s) = some s)
    (hb : ∀ s, b.decode (b.encode (f.enc s)) = some (f.enc s))
    (hne : ∀ s, s ≠ "" → b.encode (f.enc s) ≠ "") :
    (∀ s, (encrypt_token f b s).bind (decrypt_token f b) = Except.ok s)
    ∧ encrypt_token f b "" = Except.ok ""
    ∧ (∀ c, c ≠ "" → (∀ bs, b.decode c = some bs → f.dec bs = none) →
        decrypt_token f b c = Except.error "DECRYPTION_ERROR") := by
  refine ⟨?_, ?_, ?_⟩
  · intro s
    by_cases hs : s = ""
    · subst hs
      simp [encrypt_token, decrypt_token, Except.bind]
    · simp [encrypt_token, decrypt_token, hs, Except.bind, hne s hs, hb s, hf s]
  · simp [encrypt_token]
  · intro c hc hbad
    unfold decrypt_token
    rw [if_neg hc]
    cases hd : b.decode c with
    | none => rfl
    | some bs => simp [hbad bs hd]

/-- Witness for C8: the round trip, the empty passthrough and the rejection of
a tampered ciphertext, evaluated on the concrete toy cipher. -/
theorem token_encryption_roundtrip_witness :
    (encrypt_token toyFernet toyBase64 "secret").bind
      (decrypt_token toyFernet toyBase64) = Except.ok "secret"
    ∧ encrypt_token toyFernet toyBase64 "" = Except.ok ""
    ∧ decrypt_token toyFernet toyBase64 "Xbad" = Except.error "DECRYPTION_ERROR" := by
  have hf : ∀ s, toyFernet.dec (toyFernet.enc s) = some s := fun s => rfl
  have hb : ∀ s, toyBase64.decode (toyBase64.encode (toyFernet.enc s))
      = some (toyFernet.enc s) := fun s => rfl
  have hne : ∀ s, s ≠ "" → toyBase64.encode (toyFernet.enc s) ≠ "" := by
    intro s _ h
    have h2 := congrArg String.data h
    simp [toyFernet, toyBase64] at h2
  obtain ⟨h1, h2, h3⟩ := token_encryption_roundtrip toyFernet toyBase64 hf hb hne
  refine ⟨h1 "secret", h2, h3 "Xbad" (by decide) ?_⟩
  intro bs h
  simp only [toyBase64] at h
  cases h
  rfl

/-- Applying the retry loop over a list of distinct row ids equals one pointwise
update of the table. -/
theorem applyRetrySeq_map (outcome : Nat → Bool) (ids : List Nat) :
    ∀ db : MailDB, ids.Nodup →
      (applyRetrySeq outcome ids db).apiCalls
        = db.apiCalls.map (fun c =>
            if c.call_id ∈ ids then retried_row outcome c else c) := by
  induction ids with
  | nil =>
    intro db _
    simp [applyRetrySeq]
  | cons i rest ih =>
    intro db h
    rw [List.nodup_cons] at h
    have hstep : applyRetrySeq outcome (i :: rest) db
        = applyRetrySeq outcome rest (retry_failed_api_call outcome db i) := rfl
    rw [hstep, ih _ h.2]
    have hone : (retry_failed_api_call outcome db i).apiCalls
        = db.apiCalls.map (fun c =>
            if c.call_id == i then retried_row outcome c else c) := rfl
    rw [hone, List.map_map]
    apply List.map_congr_left
    intro c _
    by_cases hci : c.call_id = i
    · simp [Function.comp, hci, retried_row, h.1]
    · simp [Function.comp, hci]

/-- The retry-sweep fold over rows below the repository ceiling never takes the
skip branch and reduces to the sequential per-id retry application. -/
theorem retry_sweep_foldl (outcome : Nat → Bool) (F : List ExternalAPICall) :
    ∀ (db : MailDB) (stats : RetryStats), (∀ c ∈ F, c.retry_count < 3) →
      F.foldl (retry_sweep_step outcome) (db, stats)
        = (applyRetrySeq outcome (F.map (fun c => c.call_id)) db,
           { stats with succeeded := stats.succeeded + F.length }) := by
  induction F with
  | nil =>
    intro db stats _
    simp [applyRetrySeq]
  | cons c F ih =>
    intro db stats hlt
    have hc := hlt c (List.mem_cons_self c F)
    have h5 : ¬ (5 ≤ c.retry_count) := by omega
    rw [List.foldl_cons]
    have hstep : retry_sweep_step outcome (db, stats) c
        = (retry_failed_api_call outcome db c.call_id,
           { stats with succeeded := stats.succeeded + 1 }) := by
      simp [retry_sweep_step, h5]
    rw [hstep, ih _ _ (fun x hx => hlt x (List.mem_cons_of_mem c hx))]
    simp [applyRetrySeq]
    omega

/-- Characterization of one run of the failed-call retry sweep on a table with
distinct row ids: every fetched (failed, below-ceiling) row is retried once,
everything else is untouched, and the fetched-count is reported with zero
skips. -/
theorem retry_task_spec (outcome : Nat → Bool) (db : MailDB)
    (h : (db.apiCalls.map (fun c => c.call_id)).Nodup) :
    (failed_api_retry_task outcome db).1.apiCalls
      = db.apiCalls.map (fun c =>
          if eligible_for_retry c then retried_row outcome c else c)
    ∧ (failed_api_retry_task outcome db).2
      = { succeeded := (get_failed_api_calls db.apiCalls).length,
          failed := 0, skipped := 0 } := by
  have hFdef : get_failed_api_calls_for_retry db
      = db.apiCalls.filter eligible_for_retry := rfl
  have hlt : ∀ c ∈ db.apiCalls.filter eligible_for_retry, c.retry_count < 3 := by
    intro c hc
    have h2 := (List.mem_filter.mp hc).2
    simp [eligible_for_retry] at h2
    exact h2.2
  have hnodup : ((db.apiCalls.filter eligible_for_retry).map
      (fun c => c.call_id)).Nodup :=
    h.sublist ((List.filter_sublist db.apiCalls).map (fun c => c.call_id))
  unfold failed_api_retry_task
  rw [hFdef, retry_sweep_foldl outcome _ db _ hlt]
  constructor
  · rw [applyRetrySeq_map outcome _ _ hnodup]
    apply List.map_congr_left
    intro c hc
    by_cases he : eligible_for_retry c
    · have hmem : c.call_id ∈ (db.apiCalls.filter eligible_for_retry).map
          (fun x => x.call_id) :=
        List.mem_map_of_mem _ (List.mem_filter.mpr ⟨hc, he⟩)
      simp [hmem, he]
    · have hnmem : c.call_id ∉ (db.apiCalls.filter eligible_for_retry).map
          (fun x => x.call_id) := by
        intro hmem
        obtain ⟨c2, hc2, hid⟩ := List.mem_map.mp hmem
        have hc2l := List.mem_of_mem_filter hc2
        have hceq : c2 = c := List.inj_on_of_nodup_map h hc2l hc hid
        rw [hceq] at hc2
        exact he (List.mem_filter.mp hc2).2
      simp [hnmem, he]
  · have hsame : get_failed_api_calls db.apiCalls
        = db.apiCalls.filter eligible_for_retry := rfl
    rw [hsame]
    simp

/-- Claim C9: each run of the failed-call retry sweep attempts a retry for
exactly those ExternalAPICall rows with success=false and retry_count strictly
below the policy maximum enforced by the repository query (3), and rows at or
above that maximum are skipped but never deleted (every ineligible row
survives unchanged and the table keeps its length). -/
theorem failed_api_retry_sweep_exact (outcome : Nat → Bool) (db : MailDB)
    (h : (db.apiCalls.map (fun c => c.call_id)).Nodup) :
    (failed_api_retry_task outcome db).1.apiCalls
      = db.apiCalls.map (fun c =>
          if eligible_for_retry c then retried_row outcome c else c)
    ∧ (∀ c ∈ db.apiCalls, eligible_for_retry c = false →
        c ∈ (failed_api_retry_task outcome db).1.apiCalls)
    ∧ (failed_api_retry_task outcome db).1.apiCalls.length = db.apiCalls.length
    ∧ (failed_api_retry_task outcome db).2.skipped = 0 := by
  obtain ⟨h1, h2⟩ := retry_task_spec outcome db h
  refine ⟨h1, ?_, ?_, ?_⟩
  · intro c hc he
    rw [h1]
    have hid : (if eligible_for_retry c then retried_row outcome c else c) = c := by
      simp [he]
    exact hid ▸ List.mem_map_of_mem _ hc
  · rw [h1]
    simp
  · rw [h2]

/-- Witness for C9 on the three-row fixture: the below-ceiling failed row is
retried, the at-ceiling failed row and the successful row are untouched. -/
theorem failed_api_retry_sweep_exact_witness :
    ((retryDB.apiCalls.map (fun c => c.call_id)).Nodup)
    ∧ (failed_api_retry_task (fun _ => true) retryDB).1.apiCalls
        = retryDB.apiCalls.map (fun c =>
            if eligible_for_retry c then retried_row (fun _ => true) c else c)
    ∧ (failed_api_retry_task (fun _ => true) retryDB).1.apiCalls.length
        = retryDB.apiCalls.length
    ∧ (failed_api_retry_task (fun _ => true) retryDB).2.skipped = 0 :=
  ⟨by decide,
   (failed_api_retry_sweep_exact (fun _ => true) retryDB (by decide)).1,
   (failed_api_retry_sweep_exact (fun _ => true) retryDB (by decide)).2.2.1,
   (failed_api_retry_sweep_exact (fun _ => true) retryDB (by decide)).2.2.2⟩

/-- The audit-log append never touches the token table. -/
theorem log_auth_event_tokens (env : AuthEnv) (db : AuthDB) (a e : String)
    (f : Option AuthenticationFlow) (s : Bool) (m : Option String) :
    (log_auth_event env db a e f s m).tokens = db.tokens := by
  unfold log_auth_event
  split <;> rfl

/-- The audit-log append never touches the account table. -/
theorem log_auth_event_accounts (env : AuthEnv) (db : AuthDB) (a e : String)
    (f : Option AuthenticationFlow) (s : Bool) (m : Option String) :
    (log_auth_event env db a e f s m).accounts = db.accounts := by
  unfold log_auth_event
  split <;> rfl

/-- The audit-log append leaves everything but the log table unchanged. -/
theorem log_auth_event_core (env : AuthEnv) (db : AuthDB) (a e : String)
    (f : Option AuthenticationFlow) (s : Bool) (m : Option String) :
    (log_auth_event env db a e f s m).core = db.core := by
  unfold log_auth_event AuthDB.core
  split <;> rfl

/-- Token lookup is unaffected by an audit-log append. -/
theorem get_token_log_auth_event (env : AuthEnv) (db : AuthDB) (a e : String)
    (f : Option AuthenticationFlow) (s : Bool) (m : Option String) (aid : String) :
    get_token_by_account_id (log_auth_event env db a e f s m) aid
      = get_token_by_account_id db aid := by
  unfold get_token_by_account_id
  rw [log_auth_event_tokens]

/-- With the audit write enabled the append stores exactly one row. -/
theorem log_auth_event_authLogs (env : AuthEnv) (db : AuthDB) (a e : String)
    (f : Option AuthenticationFlow) (s : Bool) (m : Option String)
    (h : env.logSaveOk = true) :
    (log_auth_event env db a e f s m).authLogs = db.authLogs ++
      [{ account_id := a, event_type := e,
         authentication_flow := f.getD AuthenticationFlow.authorization_code,
         success := s, error_code := none, error_message := m }] := by
  simp [log_auth_event, h]

/-- Claim C4 (amended): revoke_token deletes the local Token row only when the
upstream revocation call returns without raising (whatever its boolean
result); when the upstream call raises, the local token is retained, one
failed logout event is logged and the error is re-raised. -/
theorem revoke_token_local_deletion (env : AuthEnv) (db : AuthDB)
    (account_id : String) (account : Account) (token : Token)
    (h1 : get_account_by_id db account_id = some account)
    (h2 : get_token_by_account_id db account_id = some token) :
    (∀ e, env.revokeResult token.access_token = Except.error e →
      (revoke_token env db account_id).1.tokens = db.tokens
      ∧ (revoke_token env db account_id).2 = Except.error e)
    ∧ (∀ b, env.revokeResult token.access_token = Except.ok b →
      (revoke_token env db account_id).1.tokens
        = db.tokens.filter (fun t => !(t.account_id == account_id))
      ∧ (revoke_token env db account_id).2 = Except.ok ()) := by
  constructor
  · intro e he
    simp [revoke_token, h1, h2, he, log_auth_event_tokens]
  · intro b hb
    simp [revoke_token, h1, h2, hb, log_auth_event_tokens, delete_token]

/-- Witness for C4 on the concrete fixture: raising upstream revoke leaves the
token table unchanged; successful upstream revoke deletes the account row. -/
theorem revoke_token_local_deletion_witness :
    ((revoke_token authEnvUpstreamFail authDB1 "a1").1.tokens = authDB1.tokens
      ∧ (revoke_token authEnvUpstreamFail authDB1 "a1").2
          = Except.error "network unreachable")
    ∧ ((revoke_token authEnvOk authDB1 "a1").1.tokens
          = authDB1.tokens.filter (fun t => !(t.account_id == "a1"))
      ∧ (revoke_token authEnvOk authDB1 "a1").2 = Except.ok ()) :=
  ⟨(revoke_token_local_deletion authEnvUpstreamFail authDB1 "a1" acctA validTok
      (by decide) (by decide)).1 "network unreachable" rfl,
   (revoke_token_local_deletion authEnvOk authDB1 "a1" acctA validTok
      (by decide) (by decide)).2 true rfl⟩

/-- Counterexample to C4 as stated: with the upstream revocation call raising,
the local Token row is NOT deleted (the usecase has no try block around the
upstream call, so the deletion is skipped and the error propagates). -/
theorem revoke_upstream_failure_keeps_token :
    get_token_by_account_id (revoke_token authEnvUpstreamFail authDB1 "a1").1 "a1"
      = some validTok
    ∧ (revoke_token authEnvUpstreamFail authDB1 "a1").2
        = Except.error "network unreachable" :=
  ⟨by decide, rfl⟩

/-- Claim C5 (amended): when the OAuth refresh raises, refresh_token re-raises
the error and writes one failed token_refresh audit row; the stored Token row
is left completely unchanged (it is neither deleted nor marked invalid). -/
theorem refresh_failure_behavior (env : AuthEnv) (db : AuthDB)
    (account_id : String) (account : Account) (token : Token) (rt e : String)
    (h1 : get_account_by_id db account_id = some account)
    (h2 : get_token_by_account_id db account_id = some token)
    (h3 : token.refresh_token = some rt)
    (h4 : env.refreshResult rt = Except.error e)
    (h5 : env.logSaveOk = true) :
    (refresh_token env db account_id).1.tokens = db.tokens
    ∧ (refresh_token env db account_id).2 = Except.error e
    ∧ (refresh_token env db account_id).1.authLogs
        = db.authLogs ++
          [{ account_id := account_id, event_type := "token_refresh",
             authentication_flow := account.authentication_flow, success := false,
             error_code := none, error_message := some e }] := by
  simp [refresh_token, h1, h2, h3, h4, log_auth_event_tokens,
        log_auth_event_authLogs, h5]

/-- Witness for C5 on the concrete fixture. -/
theorem refresh_failure_behavior_witness :
    (refresh_token authEnvUpstreamFail authDB1 "a1").1.tokens = authDB1.tokens
    ∧ (refresh_token authEnvUpstreamFail authDB1 "a1").2
        = Except.error "invalid_grant"
    ∧ (refresh_token authEnvUpstreamFail authDB1 "a1").1.authLogs
        = authDB1.authLogs ++
          [{ account_id := "a1", event_type := "token_refresh",
             authentication_flow := acctA.authentication_flow, success := false,
             error_code := none, error_message := some "invalid_grant" }] :=
  refresh_failure_behavior authEnvUpstreamFail authDB1 "a1" acctA validTok
    "rt-old" "invalid_grant" (by decide) (by decide) (by decide) rfl
    (by decide)

/-- Counterexample to C5 as stated: after a failed refresh the stored token
still has status valid; no code path marks the Token row invalid. -/
theorem refresh_failure_leaves_token_valid :
    (refresh_token authEnvUpstreamFail authDB1 "a1").1.tokens = [validTok]
    ∧ validTok.status = TokenStatus.valid
    ∧ (refresh_token authEnvUpstreamFail authDB1 "a1").2
        = Except.error "invalid_grant" :=
  ⟨by decide, by decide, rfl⟩

/-- Pointwise update of the token table by account_id: the row found before
the update is found in its updated form afterwards. -/
theorem find?_token_update (aid : String) (upd : Token → Token)
    (hid : ∀ e, (upd e).account_id = e.account_id) :
    ∀ (l : List Token) (t0 : Token),
      l.find? (fun e => e.account_id == aid) = some t0 →
      (l.map (fun e => if e.account_id == aid then upd e else e)).find?
          (fun e => e.account_id == aid) = some (upd t0) := by
  intro l
  induction l with
  | nil => intro t0 h; cases h
  | cons x xs ih =>
    intro t0 h
    by_cases hx : (x.account_id == aid) = true
    · have hfind : (x :: xs).find? (fun e => e.account_id == aid) = some x :=
        List.find?_cons_of_pos xs hx
      rw [hfind] at h
      injection h with h
      subst h
      rw [List.map_cons, if_pos hx]
      exact List.find?_cons_of_pos _ (by rw [hid x]; exact hx)
    · have hfind : (x :: xs).find? (fun e => e.account_id == aid)
          = xs.find? (fun e => e.account_id == aid) :=
        List.find?_cons_of_neg xs hx
      rw [hfind] at h
      rw [List.map_cons, if_neg hx]
      have hskip : ((x :: xs.map (fun e =>
            if e.account_id == aid then upd e else e)).find?
          (fun e => e.account_id == aid))
          = (xs.map (fun e => if e.account_id == aid then upd e else e)).find?
              (fun e => e.account_id == aid) :=
        List.find?_cons_of_neg _ hx
      rw [hskip]
      exact ih t0 h

/-- TokenRepository.save_token on an account that already has a row replaces
the stored fields with those of the argument token. -/
theorem save_token_lookup (db : AuthDB) (t t0 : Token)
    (h : get_token_by_account_id db t.account_id = some t0) :
    get_token_by_account_id (save_token db t) t.account_id
      = some { t0 with
          access_token := t.access_token,
          refresh_token := t.refresh_token,
          token_type := t.token_type,
          expires_at := t.expires_at,
          scopes := t.scopes,
          status := t.status } := by
  have hmem := List.mem_of_find?_eq_some h
  have hp := List.find?_some h
  have hany : db.tokens.any (fun e => e.account_id == t.account_id) = true :=
    List.any_eq_true.mpr ⟨t0, hmem, hp⟩
  unfold save_token
  rw [if_pos hany]
  exact find?_token_update t.account_id
    (fun e => { e with
        access_token := t.access_token,
        refresh_token := t.refresh_token,
        token_type := t.token_type,
        expires_at := t.expires_at,
        scopes := t.scopes,
        status := t.status })
    (fun e => rfl) db.tokens t0 h

/-- Claim C6 (amended): after a successful refresh, _save_token plus
TokenRepository.save_token store exactly the refresh response fields: the
stored refresh_token equals the response refresh_token field, which is None
when the response omits it — the previously stored refresh_token is not
retained on this path (only the OAuth client adapter, outside the cited save
path, substitutes the old value). -/
theorem save_token_overwrites_refresh (env : AuthEnv) (db : AuthDB)
    (account_id : String) (account : Account) (token : Token) (rt : String)
    (td : TokenData)
    (h1 : get_account_by_id db account_id = some account)
    (h2 : get_token_by_account_id db account_id = some token)
    (h3 : token.refresh_token = some rt)
    (h4 : env.refreshResult rt = Except.ok td) :
    (get_token_by_account_id (refresh_token env db account_id).1 account_id).map
        (fun t => t.refresh_token) = some td.refresh_token
    ∧ (get_token_by_account_id (refresh_token env db account_id).1 account_id).map
        (fun t => t.access_token) = some td.access_token
    ∧ (refresh_token env db account_id).2 = Except.ok () := by
  have hsave : get_token_by_account_id
      (save_token db (build_token env.now account_id td)) account_id
      = some { token with
          access_token := (build_token env.now account_id td).access_token,
          refresh_token := (build_token env.now account_id td).refresh_token,
          token_type := (build_token env.now account_id td).token_type,
          expires_at := (build_token env.now account_id td).expires_at,
          scopes := (build_token env.now account_id td).scopes,
          status := (build_token env.now account_id td).status } :=
    save_token_lookup db (build_token env.now account_id td) token h2
  refine ⟨?_, ?_, ?_⟩
  · simp only [refresh_token, h1, h2, h3, h4]
    rw [get_token_log_auth_event, hsave]
    simp [build_token]
  · simp only [refresh_token, h1, h2, h3, h4]
    rw [get_token_log_auth_event, hsave]
    simp [build_token]
  · simp [refresh_token, h1, h2, h3, h4]

/-- Witness for C6 on the concrete fixture: the response omits refresh_token,
and the stored row ends with refresh_token = none. -/
theorem save_token_overwrites_refresh_witness :
    (get_token_by_account_id (refresh_token authEnvOk authDB1 "a1").1 "a1").map
        (fun t => t.refresh_token) = some tdNoRefresh.refresh_token
    ∧ (get_token_by_account_id (refresh_token authEnvOk authDB1 "a1").1 "a1").map
        (fun t => t.access_token) = some tdNoRefresh.access_token
    ∧ (refresh_token authEnvOk authDB1 "a1").2 = Except.ok () :=
  save_token_overwrites_refresh authEnvOk authDB1 "a1" acctA validTok "rt-old"
    tdNoRefresh (by decide) (by decide) (by decide) rfl

/-- Counterexample to C6 as stated: the account had refresh_token rt-old, the
refresh response omits the field, and after saving, the stored refresh_token
is none rather than the retained old value. -/
theorem refresh_omitted_rt_cleared :
    validTok.refresh_token = some "rt-old"
    ∧ (get_token_by_account_id (refresh_token authEnvOk authDB1 "a1").1 "a1").map
        (fun t => t.refresh_token) = some none
    ∧ (refresh_token authEnvOk authDB1 "a1").2 = Except.ok () :=
  ⟨by decide, by decide, rfl⟩

/-- save_token leaves the audit-log table unchanged. -/
theorem save_token_authLogs (db : AuthDB) (t : Token) :
    (save_token db t).authLogs = db.authLogs := by
  unfold save_token
  split <;> rfl

/-- update_account leaves the audit-log table unchanged. -/
theorem update_account_authLogs (db : AuthDB) (a : Account) :
    (update_account db a).authLogs = db.authLogs := rfl

/-- Claim C3 (amended): with the audit write enabled, refresh_token and
revoke_token append exactly one AuthenticationLog row whose success flag
matches the outcome whenever the account exists (covering the
missing-token, missing-refresh-token, upstream-failure and success paths of
refresh, and the no-stored-token, upstream-failure and success paths of
revoke), but append none for an unknown account (the except handler itself
raises while evaluating the flow of the missing account); register_account
appends exactly one success row when it succeeds and none when it fails on a
duplicate email; authenticate_account appends one row matching the outcome
for a code exchange, a device-code poll completion, and every failure with a
known account (missing flow data, failed URL generation, failed exchange,
uninitialized device code), but none for the begin-authentication steps that
only return the authorization URL or initiate the device-code flow. -/
theorem auth_audit_log_rows (env : AuthEnv) (db : AuthDB)
    (h : env.logSaveOk = true) :
    (∀ email uid flow scopes,
       db.accounts.any (fun a => a.email == email) = true →
       (register_account env db email uid flow scopes).1.authLogs = db.authLogs
       ∧ (register_account env db email uid flow scopes).2
           = Except.error "Account with email already exists")
    ∧ (∀ email uid flow scopes,
       db.accounts.any (fun a => a.email == email) = false →
       (register_account env db email uid flow scopes).1.authLogs
         = db.authLogs ++
           [{ account_id := env.freshAccountId, event_type := "registration",
              authentication_flow := flow, success := true,
              error_code := none, error_message := none }])
    ∧ (∀ aid, get_account_by_id db aid = none →
       (refresh_token env db aid).1.authLogs = db.authLogs)
    ∧ (∀ aid account, get_account_by_id db aid = some account →
        get_token_by_account_id db aid = none →
       (refresh_token env db aid).1.authLogs = db.authLogs ++
         [{ account_id := aid, event_type := "token_refresh",
            authentication_flow := account.authentication_flow, success := false,
            error_code := none,
            error_message := some "No refresh token available" }])
    ∧ (∀ aid account token rt e, get_account_by_id db aid = some account →
        get_token_by_account_id db aid = some token →
        token.refresh_token = some rt → env.refreshResult rt = Except.error e →
       (refresh_token env db aid).1.authLogs = db.authLogs ++
         [{ account_id := aid, event_type := "token_refresh",
            authentication_flow := account.authentication_flow, success := false,
            error_code := none, error_message := some e }])
    ∧ (∀ aid account token rt td, get_account_by_id db aid = some account →
        get_token_by_account_id db aid = some token →
        token.refresh_token = some rt → env.refreshResult rt = Except.ok td →
       (refresh_token env db aid).1.authLogs = db.authLogs ++
         [{ account_id := aid, event_type := "token_refresh",
            authentication_flow := account.authentication_flow, success := true,
            error_code := none, error_message := none }])
    ∧ (∀ aid, get_account_by_id db aid = none →
       (revoke_token env db aid).1.authLogs = db.authLogs)
    ∧ (∀ aid account token e, get_account_by_id db aid = some account →
        get_token_by_account_id db aid = some token →
        env.revokeResult token.access_token = Except.error e →
       (revoke_token env db aid).1.authLogs = db.authLogs ++
         [{ account_id := aid, event_type := "logout",
            authentication_flow := account.authentication_flow, success := false,
            error_code := none, error_message := some e }])
    ∧ (∀ aid account token b, get_account_by_id db aid = some account →
        get_token_by_account_id db aid = some token →
        env.revokeResult token.access_token = Except.ok b →
       (revoke_token env db aid).1.authLogs = db.authLogs ++
         [{ account_id := aid, event_type := "logout",
            authentication_flow := account.authentication_flow, success := true,
            error_code := none, error_message := none }])
    ∧ (∀ aid account acd u, get_account_by_id db aid = some account →
        account.authentication_flow = AuthenticationFlow.authorization_code →
        db.authCodeAccounts.find? (fun a => a.account_id == account.id)
          = some acd →
        env.authUrlResult = Except.ok u →
       (authenticate_account env db aid none false).1.authLogs = db.authLogs
       ∧ (authenticate_account env db aid none false).2
           = Except.ok (AuthOutcome.requiresUserAction "authorization_url"))
    ∧ (∀ aid account acd code td, get_account_by_id db aid = some account →
        account.authentication_flow = AuthenticationFlow.authorization_code →
        db.authCodeAccounts.find? (fun a => a.account_id == account.id)
          = some acd →
        env.exchangeResult code = Except.ok td →
       (authenticate_account env db aid (some code) false).1.authLogs
         = db.authLogs ++
           [{ account_id := account.id, event_type := "authentication",
              authentication_flow := account.authentication_flow, success := true,
              error_code := none, error_message := none }])
    ∧ (∀ aid account acd code e, get_account_by_id db aid = some account →
        account.authentication_flow = AuthenticationFlow.authorization_code →
        db.authCodeAccounts.find? (fun a => a.account_id == account.id)
          = some acd →
        env.exchangeResult code = Except.error e →
       (authenticate_account env db aid (some code) false).1.authLogs
         = db.authLogs ++
           [{ account_id := aid, event_type := "authentication",
              authentication_flow := account.authentication_flow,
              success := false, error_code := none,
              error_message := some e }])
    ∧ (∀ aid account token, get_account_by_id db aid = some account →
        get_token_by_account_id db aid = some token →
        token.refresh_token = none →
       (refresh_token env db aid).1.authLogs = db.authLogs ++
         [{ account_id := aid, event_type := "token_refresh",
            authentication_flow := account.authentication_flow, success := false,
            error_code := none,
            error_message := some "No refresh token available" }])
    ∧ (∀ aid account, get_account_by_id db aid = some account →
        get_token_by_account_id db aid = none →
       (revoke_token env db aid).1.authLogs = db.authLogs ++
         [{ account_id := aid, event_type := "logout",
            authentication_flow := account.authentication_flow, success := true,
            error_code := none, error_message := none }]
       ∧ (revoke_token env db aid).2 = Except.ok ())
    ∧ (∀ aid account acd e, get_account_by_id db aid = some account →
        account.authentication_flow = AuthenticationFlow.authorization_code →
        db.authCodeAccounts.find? (fun a => a.account_id == account.id)
          = some acd →
        env.authUrlResult = Except.error e →
       (authenticate_account env db aid none false).1.authLogs = db.authLogs ++
         [{ account_id := aid, event_type := "authentication",
            authentication_flow := account.authentication_flow, success := false,
            error_code := none, error_message := some e }])
    ∧ (∀ aid account code poll, get_account_by_id db aid = some account →
        account.authentication_flow = AuthenticationFlow.authorization_code →
        db.authCodeAccounts.find? (fun a => a.account_id == account.id)
          = none →
       (authenticate_account env db aid code poll).1.authLogs = db.authLogs ++
         [{ account_id := aid, event_type := "authentication",
            authentication_flow := account.authentication_flow, success := false,
            error_code := none,
            error_message := some "Authorization code account data not found" }])
    ∧ (∀ aid account code dcd, get_account_by_id db aid = some account →
        account.authentication_flow = AuthenticationFlow.device_code →
        db.deviceCodeAccounts.find? (fun d => d.account_id == account.id)
          = some dcd →
       (authenticate_account env db aid code false).1.authLogs = db.authLogs
       ∧ (authenticate_account env db aid code false).2
           = Except.ok (AuthOutcome.requiresUserAction "device_code"))
    ∧ (∀ aid account code poll, get_account_by_id db aid = some account →
        account.authentication_flow = AuthenticationFlow.device_code →
        db.deviceCodeAccounts.find? (fun d => d.account_id == account.id)
          = none →
       (authenticate_account env db aid code poll).1.authLogs = db.authLogs ++
         [{ account_id := aid, event_type := "authentication",
            authentication_flow := account.authentication_flow, success := false,
            error_code := none,
            error_message := some "Device code account data not found" }])
    ∧ (∀ aid account code dcd, get_account_by_id db aid = some account →
        account.authentication_flow = AuthenticationFlow.device_code →
        db.deviceCodeAccounts.find? (fun d => d.account_id == account.id)
          = some dcd →
        dcd.device_code = none →
       (authenticate_account env db aid code true).1.authLogs = db.authLogs ++
         [{ account_id := aid, event_type := "authentication",
            authentication_flow := account.authentication_flow, success := false,
            error_code := none,
            error_message :=
              some "Device code not initialized. Start authentication first." }])
    ∧ (∀ aid account code dcd dc, get_account_by_id db aid = some account →
        account.authentication_flow = AuthenticationFlow.device_code →
        db.deviceCodeAccounts.find? (fun d => d.account_id == account.id)
          = some dcd →
        dcd.device_code = some dc →
       (authenticate_account env db aid code true).1.authLogs = db.authLogs ++
         [{ account_id := account.id, event_type := "authentication",
            authentication_flow := account.authentication_flow, success := true,
            error_code := none, error_message := none }]
       ∧ (authenticate_account env db aid code true).2
           = Except.ok AuthOutcome.completed) := by
  refine ⟨?_, ?_, ?_, ?_, ?_, ?_, ?_, ?_, ?_, ?_, ?_, ?_, ?_, ?_, ?_, ?_, ?_,
    ?_, ?_, ?_⟩
  · intro email uid flow scopes hdup
    simp [register_account, hdup]
  · intro email uid flow scopes hdup
    cases flow <;> simp [register_account, hdup, log_auth_event, h]
  · intro aid hacc
    simp [refresh_token, hacc]
  · intro aid account hacc htok
    simp [refresh_token, hacc, htok, log_auth_event, h]
  · intro aid account token rt e hacc htok hrt hres
    simp [refresh_token, hacc, htok, hrt, hres, log_auth_event, h]
  · intro aid account token rt td hacc htok hrt hres
    simp [refresh_token, hacc, htok, hrt, hres, log_auth_event, h,
          save_token_authLogs]
  · intro aid hacc
    simp [revoke_token, hacc]
  · intro aid account token e hacc htok hres
    simp [revoke_token, hacc, htok, hres, log_auth_event, h]
  · intro aid account token b hacc htok hres
    simp [revoke_token, hacc, htok, hres, log_auth_event, h, delete_token]
  · intro aid account acd u hacc hflow hacd hurl
    simp [authenticate_account, hacc, hflow, hacd, hurl]
  · intro aid account acd code td hacc hflow hacd hexch
    simp [authenticate_account, hacc, hflow, hacd, hexch, log_auth_event, h,
          save_token_authLogs, update_account_authLogs]
  · intro aid account acd code e hacc hflow hacd hexch
    simp [authenticate_account, hacc, hflow, hacd, hexch, log_auth_event, h]
  · intro aid account token hacc htok hrt
    simp [refresh_token, hacc, htok, hrt, log_auth_event, h]
  · intro aid account hacc htok
    simp [revoke_token, hacc, htok, log_auth_event, h]
  · intro aid account acd e hacc hflow hacd hurl
    simp [authenticate_account, hacc, hflow, hacd, hurl, log_auth_event, h]
  · intro aid account code poll hacc hflow hacd
    simp [authenticate_account, hacc, hflow, hacd, log_auth_event, h]
  · intro aid account code dcd hacc hflow hdev
    simp [authenticate_account, hacc, hflow, hdev]
  · intro aid account code poll hacc hflow hdev
    simp [authenticate_account, hacc, hflow, hdev, log_auth_event, h]
  · intro aid account code dcd hacc hflow hdev hdc
    simp [authenticate_account, hacc, hflow, hdev, hdc, log_auth_event, h]
  · intro aid account code dcd dc hacc hflow hdev hdc
    simp [authenticate_account, hacc, hflow, hdev, hdc, log_auth_event, h,
          save_token_authLogs, update_account_authLogs]

/-- Witness for C3: a successful refresh on the fixture appends exactly one
success row, and a duplicate registration appends none. -/
theorem auth_audit_log_rows_witness :
    (refresh_token authEnvOk authDB1 "a1").1.authLogs
      = authDB1.authLogs ++
        [{ account_id := "a1", event_type := "token_refresh",
           authentication_flow := acctA.authentication_flow, success := true,
           error_code := none, error_message := none }]
    ∧ (register_account authEnvOk authDB1 "a@x.com" "u2"
        AuthenticationFlow.authorization_code []).1.authLogs
        = authDB1.authLogs := by
  have hmain := auth_audit_log_rows authEnvOk authDB1 (by decide)
  exact ⟨hmain.2.2.2.2.2.1 "a1" acctA validTok "rt-old" tdNoRefresh
           (by decide) (by decide) (by decide) rfl,
         (hmain.1 "a@x.com" "u2" AuthenticationFlow.authorization_code []
           (by decide)).1⟩

/-- Counterexample to C3 as stated: a register_account call that raises on a
duplicate email produces zero AuthenticationLog rows, not exactly one failure
row. -/
theorem register_failure_logs_nothing :
    (register_account authEnvOk authDB1 "a@x.com" "u2"
        AuthenticationFlow.authorization_code []).1.authLogs = []
    ∧ (register_account authEnvOk authDB1 "a@x.com" "u2"
        AuthenticationFlow.authorization_code []).2
        = Except.error "Account with email already exists" :=
  ⟨by decide, rfl⟩

/-- register_account: outcome and non-audit state do not depend on whether the
audit write succeeds. -/
theorem register_log_indep (env : AuthEnv) (b : Bool) (db : AuthDB)
    (email uid : String) (flow : AuthenticationFlow) (scopes : List String) :
    (register_account { env with logSaveOk := b } db email uid flow scopes).2
      = (register_account env db email uid flow scopes).2
    ∧ (register_account { env with logSaveOk := b } db email uid flow scopes).1.core
      = (register_account env db email uid flow scopes).1.core := by
  unfold register_account
  by_cases hdup : db.accounts.any (fun a => a.email == email) = true
  · simp [hdup]
  · cases flow <;> simp [hdup, log_auth_event_core]

/-- refresh_token: outcome and non-audit state do not depend on whether the
audit write succeeds. -/
theorem refresh_log_indep (env : AuthEnv) (b : Bool) (db : AuthDB) (aid : String) :
    (refresh_token { env with logSaveOk := b } db aid).2
      = (refresh_token env db aid).2
    ∧ (refresh_token { env with logSaveOk := b } db aid).1.core
      = (refresh_token env db aid).1.core := by
  unfold refresh_token
  cases hacc : get_account_by_id db aid with
  | none => simp [hacc]
  | some account =>
    cases htok : get_token_by_account_id db aid with
    | none => simp [hacc, htok, log_auth_event_core]
    | some token =>
      cases hrt : token.refresh_token with
      | none => simp [hacc, htok, hrt, log_auth_event_core]
      | some rt =>
        cases hres : env.refreshResult rt with
        | error e => simp [hacc, htok, hrt, hres, log_auth_event_core]
        | ok td => simp [hacc, htok, hrt, hres, log_auth_event_core]

/-- revoke_token: outcome and non-audit state do not depend on whether the
audit write succeeds. -/
theorem revoke_log_indep (env : AuthEnv) (b : Bool) (db : AuthDB) (aid : String) :
    (revoke_token { env with logSaveOk := b } db aid).2
      = (revoke_token env db aid).2
    ∧ (revoke_token { env with logSaveOk := b } db aid).1.core
      = (revoke_token env db aid).1.core := by
  unfold revoke_token
  cases hacc : get_account_by_id db aid with
  | none => simp [hacc]
  | some account =>
    cases htok : get_token_by_account_id db aid with
    | none => simp [hacc, htok, log_auth_event_core]
    | some token =>
      cases hres : env.revokeResult token.access_token with
      | error e => simp [hacc, htok, hres, log_auth_event_core]
      | ok x => simp [hacc, htok, hres, log_auth_event_core]

/-- authenticate_account: outcome and non-audit state do not depend on whether
the audit write succeeds. -/
theorem authenticate_log_indep (env : AuthEnv) (b : Bool) (db : AuthDB)
    (aid : String) (code : Option String) (poll : Bool) :
    (authenticate_account { env with logSaveOk := b } db aid code poll).2
      = (authenticate_account env db aid code poll).2
    ∧ (authenticate_account { env with logSaveOk := b } db aid code poll).1.core
      = (authenticate_account env db aid code poll).1.core := by
  unfold authenticate_account
  cases hacc : get_account_by_id db aid with
  | none => simp [hacc]
  | some account =>
    cases hflow : account.authentication_flow with
    | authorization_code =>
      cases hacd : db.authCodeAccounts.find? (fun a => a.account_id == account.id) with
      | none => simp [hacc, hflow, hacd, log_auth_event_core]
      | some acd =>
        cases code with
        | none =>
          cases hurl : env.authUrlResult with
          | error e => simp [hacc, hflow, hacd, hurl, log_auth_event_core]
          | ok u => simp [hacc, hflow, hacd, hurl]
        | some c =>
          cases hexch : env.exchangeResult c with
          | error e => simp [hacc, hflow, hacd, hexch, log_auth_event_core]
          | ok td => simp [hacc, hflow, hacd, hexch, log_auth_event_core]
    | device_code =>
      cases hdev : db.deviceCodeAccounts.find? (fun d => d.account_id == account.id) with
      | none => simp [hacc, hflow, hdev, log_auth_event_core]
      | some deviceData =>
        cases hpoll : poll with
        | false => simp [hacc, hflow, hdev, log_auth_event_core]
        | true =>
          cases hdc : deviceData.device_code with
          | none => simp [hacc, hflow, hdev, hdc, log_auth_event_core]
          | some dc => simp [hacc, hflow, hdev, hdc, log_auth_event_core]

/-- Claim C10: for every authentication operation, a failure while persisting
the AuthenticationLog row never propagates: _log_auth_event swallows the
repository exception, so the operation returns the same outcome and leaves
every non-audit table in the same state whether or not the audit write
succeeds. -/
theorem audit_write_failure_isolated (env : AuthEnv) (b : Bool) (db : AuthDB)
    (email uid aid : String) (flow : AuthenticationFlow) (scopes : List String)
    (code : Option String) (poll : Bool) :
    ((register_account { env with logSaveOk := b } db email uid flow scopes).2
       = (register_account env db email uid flow scopes).2
     ∧ (register_account { env with logSaveOk := b } db email uid flow scopes).1.core
       = (register_account env db email uid flow scopes).1.core)
    ∧ ((authenticate_account { env with logSaveOk := b } db aid code poll).2
       = (authenticate_account env db aid code poll).2
     ∧ (authenticate_account { env with logSaveOk := b } db aid code poll).1.core
       = (authenticate_account env db aid code poll).1.core)
    ∧ ((refresh_token { env with logSaveOk := b } db aid).2
       = (refresh_token env db aid).2
     ∧ (refresh_token { env with logSaveOk := b } db aid).1.core
       = (refresh_token env db aid).1.core)
    ∧ ((revoke_token { env with logSaveOk := b } db aid).2
       = (revoke_token env db aid).2
     ∧ (revoke_token { env with logSaveOk := b } db aid).1.core
       = (revoke_token env db aid).1.core) :=
  ⟨register_log_indep env b db email uid flow scopes,
   authenticate_log_indep env b db aid code poll,
   refresh_log_indep env b db aid,
   revoke_log_indep env b db aid⟩

/-- Claim C7, evaluated at the failing input: process_webhook_notification
never compares the notification clientState with the client_state stored on
the subscription.  With stored client_state stored-state and notification
clientState wrong-state, the call succeeds and still triggers the delta sync
for the owning account: a new mail row is stored and a delta query history
row is written, instead of the specified InvalidWebhookNotificationError with
no sync. -/
theorem webhook_mismatched_client_state_syncs :
    (get_webhook_subscription webhookDB "sub1").map (fun s => s.client_state)
      = some "stored-state"
    ∧ mismatchNotification.clientState = some "wrong-state"
    ∧ (process_webhook_notification mailEnv1 webhookDB mismatchNotification).2
        = Except.ok 1
    ∧ (process_webhook_notification mailEnv1 webhookDB
        mismatchNotification).1.mails
        = [create_mail_message gm1 "a1" MailDirection.received]
    ∧ (process_webhook_notification mailEnv1 webhookDB
        mismatchNotification).1.queryHistories
        = [{ account_id := "a1", query_type := "delta", messages_found := 1,
             new_messages := 1, success := true }] := by
  refine ⟨by decide, by decide, ?_, by decide, by decide⟩
  rfl

/-- A row passing a key-specific filter has that key. -/
theorem length_filter_le_one_of_nodup_map {α β : Type _} (key : α → β) (k : β)
    (p : α → Bool) (hpk : ∀ x, p x = true → key x = k) :
    ∀ l : List α, (l.map key).Nodup → (l.filter p).length ≤ 1 := by
  intro l
  induction l with
  | nil => intro _; simp
  | cons x xs ih =>
    intro h
    rw [List.map_cons, List.nodup_cons] at h
    by_cases hx : p x = true
    · have hempty : xs.filter p = [] := by
        rw [List.filter_eq_nil_iff]
        intro y hy hpy
        refine h.1 ?_
        rw [hpk x hx, ← hpk y hpy]
        exact List.mem_map_of_mem key hy
      simp [List.filter_cons, hx, hempty]
    · simp only [List.filter_cons, hx, Bool.false_eq_true, if_false]
      exact ih h.2

/-- mail_exists answers membership of the composite key among the stored keys. -/
theorem mail_exists_iff (db : MailDB) (mid aid : String) :
    mail_exists db mid aid = true ↔ (aid, mid) ∈ mailKeys db := by
  simp only [mail_exists, mailKeys, List.any_eq_true, List.mem_map,
    Bool.and_eq_true, beq_iff_eq, Prod.mk.injEq]
  constructor
  · rintro ⟨r, hr, h1, h2⟩
    exact ⟨r, hr, h2, h1⟩
  · rintro ⟨r, hr, h1, h2⟩
    exact ⟨r, hr, h2, h1⟩

/-- Inserting a mail row appends its composite key. -/
theorem mailKeys_save_mail (db : MailDB) (m : MailMessage) :
    mailKeys (save_mail_message db m)
      = mailKeys db ++ [(m.account_id, m.message_id)] := by
  simp [mailKeys, save_mail_message]

/-- External forwarding does not change the stored mail keys. -/
theorem mailKeys_send (ext : ExternalApiEnv) (db : MailDB) (m : MailMessage) :
    mailKeys (send_to_external_api ext db m) = mailKeys db := by
  unfold send_to_external_api
  cases ext.endpoint <;> rfl

/-- Query history logging does not change the stored mail keys. -/
theorem mailKeys_history (db : MailDB) (a q : String) (mf nm : Nat) :
    mailKeys (log_query_history db a q mf nm) = mailKeys db := rfl

/-- Saving a delta link does not change the stored mail keys. -/
theorem mailKeys_save_delta (db : MailDB) (dl : DeltaLink) :
    mailKeys (save_delta_link db dl) = mailKeys db := rfl

/-- The per-message body of query_mails preserves the dedup invariant. -/
theorem process_query_message_dedup (ext : ExternalApiEnv) (aid : String)
    (dir : MailDirection) :
    ∀ (st : MailDB × List MailMessage × Nat) (msg : GraphMessage),
      MailDedupInv st.1 → MailDedupInv (process_query_message ext aid dir st msg).1 := by
  rintro ⟨db, coll, n⟩ msg h
  have hdb : (mailKeys db).Nodup := h
  unfold process_query_message
  dsimp only
  by_cases hex : mail_exists db msg.id aid = true
  · rw [if_pos hex]
    cases hg : get_mail_by_message_id db msg.id <;> simp only [hg] <;> exact hdb
  · rw [if_neg hex]
    have hnot : (aid, msg.id) ∉ mailKeys db := fun hmem =>
      hex ((mail_exists_iff db msg.id aid).mpr hmem)
    show ((mailKeys (send_to_external_api ext
      (save_mail_message db (create_mail_message msg aid dir))
      (create_mail_message msg aid dir)))).Nodup
    rw [mailKeys_send, mailKeys_save_mail]
    rw [List.nodup_append]
    refine ⟨hdb, List.nodup_singleton _, ?_⟩
    intro x hx hx2
    rw [List.mem_singleton] at hx2
    subst hx2
    exact hnot hx

/-- The per-message body of sync_delta_mails preserves the dedup invariant. -/
theorem process_delta_message_dedup (ext : ExternalApiEnv) (aid : String) :
    ∀ (st : MailDB × Nat) (msg : GraphMessage),
      MailDedupInv st.1 → MailDedupInv (process_delta_message ext aid st msg).1 := by
  rintro ⟨db, n⟩ msg h
  have hdb : (mailKeys db).Nodup := h
  unfold process_delta_message
  dsimp only
  by_cases hex : mail_exists db msg.id aid = true
  · rw [if_pos hex]
    exact hdb
  · rw [if_neg hex]
    have hnot : (aid, msg.id) ∉ mailKeys db := fun hmem =>
      hex ((mail_exists_iff db msg.id aid).mpr hmem)
    show ((mailKeys (send_to_external_api ext
      (save_mail_message db (create_mail_message msg aid MailDirection.received))
      (create_mail_message msg aid MailDirection.received)))).Nodup
    rw [mailKeys_send, mailKeys_save_mail]
    rw [List.nodup_append]
    refine ⟨hdb, List.nodup_singleton _, ?_⟩
    intro x hx hx2
    rw [List.mem_singleton] at hx2
    subst hx2
    exact hnot hx

/-- A fold preserves any property its step preserves. -/
theorem foldl_preserve {σ α : Type _} (P : σ → Prop) (f : σ → α → σ)
    (hf : ∀ s a, P s → P (f s a)) :
    ∀ (l : List α) (s : σ), P s → P (l.foldl f s) := by
  intro l
  induction l with
  | nil => intro s h; exact h
  | cons a l ih => intro s h; exact ih _ (hf s a h)

/-- query_account preserves the dedup invariant. -/
theorem query_account_dedup (env : MailEnv) (dir : MailDirection) (db : MailDB)
    (acct : Account) (h : MailDedupInv db) :
    MailDedupInv (query_account env dir db acct).1 := by
  cases hft : find_token env.tokens acct.id with
  | none => simpa [query_account, hft] using h
  | some t =>
    cases hexp : t.is_expired env.now with
    | true => simpa [query_account, hft, hexp] using h
    | false =>
      have hfold := foldl_preserve
        (fun st : MailDB × List MailMessage × Nat => MailDedupInv st.1)
        (process_query_message env.ext acct.id dir)
        (process_query_message_dedup env.ext acct.id dir)
        (env.graphMessages acct.id) (db, [], 0) h
      rcases hst : (env.graphMessages acct.id).foldl
        (process_query_message env.ext acct.id dir) (db, [], 0) with ⟨db2, c2, n2⟩
      rw [hst] at hfold
      have hgoal : (query_account env dir db acct).1
          = log_query_history db2 acct.id "manual"
              (env.graphMessages acct.id).length n2 := by
        simp [query_account, hft, hexp, hst]
      rw [hgoal]
      show (mailKeys (log_query_history db2 acct.id "manual"
        (env.graphMessages acct.id).length n2)).Nodup
      rw [mailKeys_history]
      exact hfold

/-- sync_account preserves the dedup invariant. -/
theorem sync_account_dedup (env : MailEnv) (folder : String) (db : MailDB)
    (acct : Account) (h : MailDedupInv db) :
    MailDedupInv (sync_account env folder db acct).1 := by
  cases hft : find_token env.tokens acct.id with
  | none => simpa [sync_account, hft] using h
  | some t =>
    cases hexp : t.is_expired env.now with
    | true => simpa [sync_account, hft, hexp] using h
    | false =>
      have hfold := foldl_preserve
        (fun st : MailDB × Nat => MailDedupInv st.1)
        (process_delta_message env.ext acct.id)
        (process_delta_message_dedup env.ext acct.id)
        (env.graphDelta acct.id ((get_delta_link db acct.id folder).map
          (fun dl => dl.delta_token))).value (db, 0) h
      rcases hst : (env.graphDelta acct.id ((get_delta_link db acct.id folder).map
        (fun dl => dl.delta_token))).value.foldl
        (process_delta_message env.ext acct.id) (db, 0) with ⟨db2, n2⟩
      rw [hst] at hfold
      have hmid : MailDedupInv (match extract_delta_token (env.graphDelta acct.id
          ((get_delta_link db acct.id folder).map (fun dl => dl.delta_token))) with
        | some tok => save_delta_link db2
            { account_id := acct.id, folder_id := folder, delta_token := tok,
              created_at := env.now, last_used_at := some env.now,
              is_active := true }
        | none => db2) := by
        cases extract_delta_token (env.graphDelta acct.id
            ((get_delta_link db acct.id folder).map (fun dl => dl.delta_token))) with
        | none => exact hfold
        | some tok =>
          show (mailKeys (save_delta_link db2 _)).Nodup
          rw [mailKeys_save_delta]
          exact hfold
      have hgoal : (sync_account env folder db acct).1
          = log_query_history (match extract_delta_token (env.graphDelta acct.id
              ((get_delta_link db acct.id folder).map (fun dl => dl.delta_token))) with
            | some tok => save_delta_link db2
                { account_id := acct.id, folder_id := folder, delta_token := tok,
                  created_at := env.now, last_used_at := some env.now,
                  is_active := true }
            | none => db2) acct.id "delta"
              (env.graphDelta acct.id ((get_delta_link db acct.id folder).map
                (fun dl => dl.delta_token))).value.length n2 := by
        simp [sync_account, hft, hexp, hst]
      rw [hgoal]
      show (mailKeys (log_query_history _ acct.id "delta" _ n2)).Nodup
      rw [mailKeys_history]
      exact hmid

/-- query_mails preserves the dedup invariant. -/
theorem query_mails_dedup (env : MailEnv) (aid : Option String)
    (dir : MailDirection) (db : MailDB) (h : MailDedupInv db) :
    MailDedupInv (query_mails env aid dir db).1 := by
  cases aid with
  | some a =>
    cases hfa : env.accounts.find? (fun x => x.id == a) with
    | none => simpa [query_mails, hfa] using h
    | some acct =>
      have hq := query_account_dedup env dir db acct h
      rcases hqa : query_account env dir db acct with ⟨db2, c2, n2⟩
      rw [hqa] at hq
      have hgoal : (query_mails env (some a) dir db).1 = db2 := by
        simp [query_mails, hfa, hqa]
      rw [hgoal]
      exact hq
  | none =>
    have hfold := foldl_preserve
      (fun st : MailDB × List MailMessage × Nat => MailDedupInv st.1)
      (fun st a =>
        let (db, ms, n) := st
        let (db2, ms2, n2) := query_account env dir db a
        (db2, ms ++ ms2, n + n2))
      (by
        rintro ⟨db0, ms, n⟩ a h0
        have hq := query_account_dedup env dir db0 a h0
        rcases hqa : query_account env dir db0 a with ⟨db2, c2, n2⟩
        rw [hqa] at hq
        simpa [hqa] using hq)
      env.accounts (db, [], 0) h
    rcases hst : env.accounts.foldl
      (fun st a =>
        let (db, ms, n) := st
        let (db2, ms2, n2) := query_account env dir db a
        (db2, ms ++ ms2, n + n2)) (db, [], 0) with ⟨db2, c2, n2⟩
    rw [hst] at hfold
    have hgoal : (query_mails env none dir db).1 = db2 := by
      simp [query_mails, hst]
    rw [hgoal]
    exact hfold

/-- sync_delta_mails preserves the dedup invariant. -/
theorem sync_delta_mails_dedup (env : MailEnv) (aid : Option String)
    (folder : String) (db : MailDB) (h : MailDedupInv db) :
    MailDedupInv (sync_delta_mails env aid folder db).1 := by
  cases aid with
  | some a =>
    cases hfa : env.accounts.find? (fun x => x.id == a) with
    | none => simpa [sync_delta_mails, hfa] using h
    | some acct =>
      have hq := sync_account_dedup env folder db acct h
      rcases hqa : sync_account env folder db acct with ⟨db2, n2⟩
      rw [hqa] at hq
      have hgoal : (sync_delta_mails env (some a) folder db).1 = db2 := by
        simp [sync_delta_mails, hfa, hqa]
      rw [hgoal]
      exact hq
  | none =>
    have hfold := foldl_preserve
      (fun st : MailDB × Nat => MailDedupInv st.1)
      (fun st a =>
        let (db, n) := st
        let (db2, n2) := sync_account env folder db a
        (db2, n + n2))
      (by
        rintro ⟨db0, n⟩ a h0
        have hq := sync_account_dedup env folder db0 a h0
        rcases hqa : sync_account env folder db0 a with ⟨db2, n2⟩
        rw [hqa] at hq
        simpa [hqa] using hq)
      env.accounts (db, 0) h
    rcases hst : env.accounts.foldl
      (fun st a =>
        let (db, n) := st
        let (db2, n2) := sync_account env folder db a
        (db2, n + n2)) (db, 0) with ⟨db2, n2⟩
    rw [hst] at hfold
    have hgoal : (sync_delta_mails env none folder db).1 = db2 := by
      simp [sync_delta_mails, hst]
    rw [hgoal]
    exact hfold

/-- Claim C1: for every account A and provider message id M, after any
sequence of query_mails and sync_delta_mails calls, at most one MailMessage
row exists for the pair (A, M): every insert is guarded by the composite-key
existence check mail_exists, so the no-duplicate-keys invariant is preserved
and each pair owns at most one row. -/
theorem mail_dedup_invariant (calls : List MailCall) (db : MailDB)
    (h : MailDedupInv db) :
    MailDedupInv (runMailCalls calls db)
    ∧ ∀ a m, mailRowCount (runMailCalls calls db) a m ≤ 1 := by
  have hinv : MailDedupInv (runMailCalls calls db) := by
    refine foldl_preserve MailDedupInv runMailCall ?_ calls db h
    intro s a hs
    cases a with
    | queryCall env aid dir => exact query_mails_dedup env aid dir s hs
    | deltaCall env aid folder => exact sync_delta_mails_dedup env aid folder s hs
  refine ⟨hinv, ?_⟩
  intro a m
  exact length_filter_le_one_of_nodup_map
    (fun r => (r.account_id, r.message_id)) (a, m)
    (fun r => r.account_id == a && r.message_id == m)
    (fun x hx => by
      simp only [Bool.and_eq_true, beq_iff_eq] at hx
      show (x.account_id, x.message_id) = (a, m)
      rw [hx.1, hx.2])
    (runMailCalls calls db).mails
    (show ((runMailCalls calls db).mails.map
        (fun r => (r.account_id, r.message_id))).Nodup from hinv)

/-- Witness for C1: the same upstream message arrives twice in one query
response and once more in a delta sync; exactly one row is stored and every
pair count stays at most one. -/
theorem mail_dedup_invariant_witness :
    MailDedupInv emptyMailDB
    ∧ (MailDedupInv (runMailCalls demoCalls emptyMailDB)
       ∧ ∀ a m, mailRowCount (runMailCalls demoCalls emptyMailDB) a m ≤ 1)
    ∧ (runMailCalls demoCalls emptyMailDB).mails.length = 1 :=
  ⟨by simp [MailDedupInv, mailKeys, emptyMailDB],
   mail_dedup_invariant demoCalls emptyMailDB
     (by simp [MailDedupInv, mailKeys, emptyMailDB]),
   by decide⟩

/-- Mail insert does not change the active delta-link keys. -/
theorem activeDeltaKeys_save_mail (db : MailDB) (m : MailMessage) :
    activeDeltaKeys (save_mail_message db m) = activeDeltaKeys db := rfl

/-- External forwarding does not change the active delta-link keys. -/
theorem activeDeltaKeys_send (ext : ExternalApiEnv) (db : MailDB)
    (m : MailMessage) :
    activeDeltaKeys (send_to_external_api ext db m) = activeDeltaKeys db := by
  unfold send_to_external_api
  cases ext.endpoint <;> rfl

/-- Query history logging does not change the active delta-link keys. -/
theorem activeDeltaKeys_history (db : MailDB) (a q : String) (mf nm : Nat) :
    activeDeltaKeys (log_query_history db a q mf nm) = activeDeltaKeys db := rfl

/-- List-level effect of save_delta_link on the active keys: the keys equal to
the saved pair are removed and the new pair is appended exactly when the saved
link is active. -/
theorem activeKeys_deact_append (dl : DeltaLink) :
    ∀ l : List DeltaLink,
      ((l.map (fun e =>
          if e.account_id == dl.account_id && e.folder_id == dl.folder_id
              && e.is_active
          then { e with is_active := false } else e) ++ [dl]).filter
        (fun e => e.is_active)).map (fun e => (e.account_id, e.folder_id))
      = ((l.filter (fun e => e.is_active)).map
          (fun e => (e.account_id, e.folder_id))).filter
          (fun k => !(k == (dl.account_id, dl.folder_id)))
        ++ (if dl.is_active then [(dl.account_id, dl.folder_id)] else []) := by
  intro l
  induction l with
  | nil => cases hdl : dl.is_active <;> simp [List.filter, hdl]
  | cons x xs ih =>
    by_cases hmatch : (x.account_id == dl.account_id
        && x.folder_id == dl.folder_id && x.is_active) = true
    · have hx3 := hmatch
      simp only [Bool.and_eq_true, beq_iff_eq] at hx3
      rw [List.map_cons, if_pos hmatch, List.cons_append, List.filter_cons]
      rw [if_neg (show ¬ ((({ x with is_active := false } : DeltaLink).is_active)
          = true) by simp)]
      rw [ih]
      rw [List.filter_cons, if_pos hx3.2, List.map_cons, List.filter_cons]
      rw [if_neg (show ¬ ((!(((x.account_id, x.folder_id) : String × String)
          == (dl.account_id, dl.folder_id))) = true) by
        simp [hx3.1.1, hx3.1.2])]
    · by_cases hact : x.is_active = true
      · have hne : ((x.account_id, x.folder_id) : String × String)
            ≠ (dl.account_id, dl.folder_id) := by
          intro hk
          apply hmatch
          rw [Prod.mk.injEq] at hk
          simp [hk.1, hk.2, hact]
        rw [List.map_cons, if_neg hmatch, List.cons_append, List.filter_cons]
        rw [if_pos hact, List.map_cons, ih]
        rw [List.filter_cons, if_pos hact, List.map_cons, List.filter_cons]
        rw [if_pos (show (!(((x.account_id, x.folder_id) : String × String)
            == (dl.account_id, dl.folder_id))) = true by simp [hne])]
        rfl
      · have hact2 : x.is_active = false := by
          cases hx : x.is_active
          · rfl
          · exact absurd hx hact
        rw [List.map_cons, if_neg hmatch, List.cons_append, List.filter_cons]
        rw [if_neg (show ¬ (x.is_active = true) by simp [hact2])]
        rw [ih]
        rw [List.filter_cons, if_neg (show ¬ (x.is_active = true) by simp [hact2])]

/-- Effect of save_delta_link on the active keys of the state. -/
theorem activeDeltaKeys_save_delta (db : MailDB) (dl : DeltaLink) :
    activeDeltaKeys (save_delta_link db dl)
      = (activeDeltaKeys db).filter
          (fun k => !(k == (dl.account_id, dl.folder_id)))
        ++ (if dl.is_active then [(dl.account_id, dl.folder_id)] else []) :=
  activeKeys_deact_append dl db.deltaLinks

/-- save_delta_link preserves the one-active-link-per-pair invariant. -/
theorem save_delta_link_active_inv (db : MailDB) (dl : DeltaLink)
    (h : DeltaActiveInv db) : DeltaActiveInv (save_delta_link db dl) := by
  have hdb : (activeDeltaKeys db).Nodup := h
  show (activeDeltaKeys (save_delta_link db dl)).Nodup
  rw [activeDeltaKeys_save_delta]
  rw [List.nodup_append]
  refine ⟨hdb.filter _, ?_, ?_⟩
  · cases dl.is_active <;> simp
  · intro k hk hk2
    cases hdl : dl.is_active
    · rw [hdl] at hk2
      simp at hk2
    · rw [hdl] at hk2
      simp only [if_true] at hk2
      rw [List.mem_singleton] at hk2
      subst hk2
      have := List.of_mem_filter hk
      simp at this

/-- The per-message body of query_mails leaves the active delta keys alone. -/
theorem activeDeltaKeys_process_query (ext : ExternalApiEnv) (aid : String)
    (dir : MailDirection) :
    ∀ (st : MailDB × List MailMessage × Nat) (msg : GraphMessage),
      activeDeltaKeys (process_query_message ext aid dir st msg).1
        = activeDeltaKeys st.1 := by
  rintro ⟨db, coll, n⟩ msg
  unfold process_query_message
  dsimp only
  by_cases hex : mail_exists db msg.id aid = true
  · rw [if_pos hex]
    cases hg : get_mail_by_message_id db msg.id <;> rfl
  · rw [if_neg hex]
    show activeDeltaKeys (send_to_external_api ext
      (save_mail_message db (create_mail_message msg aid dir))
      (create_mail_message msg aid dir)) = activeDeltaKeys db
    rw [activeDeltaKeys_send, activeDeltaKeys_save_mail]

/-- The per-message body of sync_delta_mails leaves the active delta keys alone. -/
theorem activeDeltaKeys_process_delta (ext : ExternalApiEnv) (aid : String) :
    ∀ (st : MailDB × Nat) (msg : GraphMessage),
      activeDeltaKeys (process_delta_message ext aid st msg).1
        = activeDeltaKeys st.1 := by
  rintro ⟨db, n⟩ msg
  unfold process_delta_message
  dsimp only
  by_cases hex : mail_exists db msg.id aid = true
  · rw [if_pos hex]
  · rw [if_neg hex]
    show activeDeltaKeys (send_to_external_api ext
      (save_mail_message db (create_mail_message msg aid MailDirection.received))
      (create_mail_message msg aid MailDirection.received)) = activeDeltaKeys db
    rw [activeDeltaKeys_send, activeDeltaKeys_save_mail]

/-- query_account never touches the delta-link table. -/
theorem activeDeltaKeys_query_account (env : MailEnv) (dir : MailDirection)
    (db : MailDB) (acct : Account) :
    activeDeltaKeys (query_account env dir db acct).1 = activeDeltaKeys db := by
  cases hft : find_token env.tokens acct.id with
  | none => simp [query_account, hft]
  | some t =>
    cases hexp : t.is_expired env.now with
    | true => simp [query_account, hft, hexp]
    | false =>
      have hfold := foldl_preserve
        (fun st : MailDB × List MailMessage × Nat =>
          activeDeltaKeys st.1 = activeDeltaKeys db)
        (process_query_message env.ext acct.id dir)
        (fun s a hs => by
          show activeDeltaKeys (process_query_message env.ext acct.id dir s a).1
            = activeDeltaKeys db
          rw [activeDeltaKeys_process_query]
          exact hs)
        (env.graphMessages acct.id) (db, [], 0) rfl
      rcases hst : (env.graphMessages acct.id).foldl
        (process_query_message env.ext acct.id dir) (db, [], 0) with ⟨db2, c2, n2⟩
      rw [hst] at hfold
      have hgoal : (query_account env dir db acct).1
          = log_query_history db2 acct.id "manual"
              (env.graphMessages acct.id).length n2 := by
        simp [query_account, hft, hexp, hst]
      rw [hgoal, activeDeltaKeys_history]
      exact hfold

/-- query_mails never touches the delta-link table. -/
theorem activeDeltaKeys_query_mails (env : MailEnv) (aid : Option String)
    (dir : MailDirection) (db : MailDB) :
    activeDeltaKeys (query_mails env aid dir db).1 = activeDeltaKeys db := by
  cases aid with
  | some a =>
    cases hfa : env.accounts.find? (fun x => x.id == a) with
    | none => simp [query_mails, hfa]
    | some acct =>
      have hq := activeDeltaKeys_query_account env dir db acct
      rcases hqa : query_account env dir db acct with ⟨db2, c2, n2⟩
      rw [hqa] at hq
      have hgoal : (query_mails env (some a) dir db).1 = db2 := by
        simp [query_mails, hfa, hqa]
      rw [hgoal]
      exact hq
  | none =>
    have hfold := foldl_preserve
      (fun st : MailDB × List MailMessage × Nat =>
        activeDeltaKeys st.1 = activeDeltaKeys db)
      (fun st a =>
        let (db, ms, n) := st
        let (db2, ms2, n2) := query_account env dir db a
        (db2, ms ++ ms2, n + n2))
      (by
        rintro ⟨db0, ms, n⟩ a hst
        have hq := activeDeltaKeys_query_account env dir db0 a
        rcases hqa : query_account env dir db0 a with ⟨db2, c2, n2⟩
        rw [hqa] at hq
        simp only [hqa]
        show activeDeltaKeys db2 = activeDeltaKeys db
        rw [hq]
        exact hst)
      env.accounts (db, [], 0) rfl
    rcases hst : env.accounts.foldl
      (fun st a =>
        let (db, ms, n) := st
        let (db2, ms2, n2) := query_account env dir db a
        (db2, ms ++ ms2, n + n2)) (db, [], 0) with ⟨db2, c2, n2⟩
    rw [hst] at hfold
    have hgoal : (query_mails env none dir db).1 = db2 := by
      simp [query_mails, hst]
    rw [hgoal]
    exact hfold

/-- sync_account preserves the one-active-link-per-pair invariant. -/
theorem sync_account_delta_inv (env : MailEnv) (folder : String) (db : MailDB)
    (acct : Account) (h : DeltaActiveInv db) :
    DeltaActiveInv (sync_account env folder db acct).1 := by
  cases hft : find_token env.tokens acct.id with
  | none => simpa [sync_account, hft] using h
  | some t =>
    cases hexp : t.is_expired env.now with
    | true => simpa [sync_account, hft, hexp] using h
    | false =>
      have hfold := foldl_preserve
        (fun st : MailDB × Nat => activeDeltaKeys st.1 = activeDeltaKeys db)
        (process_delta_message env.ext acct.id)
        (fun s a hs => by
          show activeDeltaKeys (process_delta_message env.ext acct.id s a).1
            = activeDeltaKeys db
          rw [activeDeltaKeys_process_delta]
          exact hs)
        (env.graphDelta acct.id ((get_delta_link db acct.id folder).map
          (fun dl => dl.delta_token))).value (db, 0) rfl
      rcases hst : (env.graphDelta acct.id ((get_delta_link db acct.id folder).map
        (fun dl => dl.delta_token))).value.foldl
        (process_delta_message env.ext acct.id) (db, 0) with ⟨db2, n2⟩
      rw [hst] at hfold
      have hdb2 : DeltaActiveInv db2 := by
        show (activeDeltaKeys db2).Nodup
        rw [hfold]
        exact h
      have hmid : DeltaActiveInv (match extract_delta_token (env.graphDelta acct.id
          ((get_delta_link db acct.id folder).map (fun dl => dl.delta_token))) with
        | some tok => save_delta_link db2
            { account_id := acct.id, folder_id := folder, delta_token := tok,
              created_at := env.now, last_used_at := some env.now,
              is_active := true }
        | none => db2) := by
        cases extract_delta_token (env.graphDelta acct.id
            ((get_delta_link db acct.id folder).map (fun dl => dl.delta_token))) with
        | none => exact hdb2
        | some tok => exact save_delta_link_active_inv db2 _ hdb2
      have hgoal : (sync_account env folder db acct).1
          = log_query_history (match extract_delta_token (env.graphDelta acct.id
              ((get_delta_link db acct.id folder).map (fun dl => dl.delta_token))) with
            | some tok => save_delta_link db2
                { account_id := acct.id, folder_id := folder, delta_token := tok,
                  created_at := env.now, last_used_at := some env.now,
                  is_active := true }
            | none => db2) acct.id "delta"
              (env.graphDelta acct.id ((get_delta_link db acct.id folder).map
                (fun dl => dl.delta_token))).value.length n2 := by
        simp [sync_account, hft, hexp, hst]
      rw [hgoal]
      show (activeDeltaKeys (log_query_history _ acct.id "delta" _ n2)).Nodup
      rw [activeDeltaKeys_history]
      exact hmid

/-- sync_delta_mails preserves the one-active-link-per-pair invariant. -/
theorem sync_delta_mails_delta_inv (env : MailEnv) (aid : Option String)
    (folder : String) (db : MailDB) (h : DeltaActiveInv db) :
    DeltaActiveInv (sync_delta_mails env aid folder db).1 := by
  cases aid with
  | some a =>
    cases hfa : env.accounts.find? (fun x => x.id == a) with
    | none => simpa [sync_delta_mails, hfa] using h
    | some acct =>
      have hq := sync_account_delta_inv env folder db acct h
      rcases hqa : sync_account env folder db acct with ⟨db2, n2⟩
      rw [hqa] at hq
      have hgoal : (sync_delta_mails env (some a) folder db).1 = db2 := by
        simp [sync_delta_mails, hfa, hqa]
      rw [hgoal]
      exact hq
  | none =>
    have hfold := foldl_preserve
      (fun st : MailDB × Nat => DeltaActiveInv st.1)
      (fun st a =>
        let (db, n) := st
        let (db2, n2) := sync_account env folder db a
        (db2, n + n2))
      (by
        rintro ⟨db0, n⟩ a h0
        have hq := sync_account_delta_inv env folder db0 a h0
        rcases hqa : sync_account env folder db0 a with ⟨db2, n2⟩
        rw [hqa] at hq
        simpa [hqa] using hq)
      env.accounts (db, 0) h
    rcases hst : env.accounts.foldl
      (fun st a =>
        let (db, n) := st
        let (db2, n2) := sync_account env folder db a
        (db2, n + n2)) (db, 0) with ⟨db2, n2⟩
    rw [hst] at hfold
    have hgoal : (sync_delta_mails env none folder db).1 = db2 := by
      simp [sync_delta_mails, hst]
    rw [hgoal]
    exact hfold

/-- Under the invariant, each (account, folder) pair has at most one active
delta link row. -/
theorem activeDeltaCount_le_one (db : MailDB) (h : DeltaActiveInv db)
    (a f : String) : activeDeltaCount db a f ≤ 1 := by
  have hsplit : ((db.deltaLinks.filter (fun e => e.is_active)).filter
      (fun e => e.account_id == a && e.folder_id == f))
      = db.deltaLinks.filter
          (fun e => (e.account_id == a && e.folder_id == f) && e.is_active) :=
    List.filter_filter _ _
  unfold activeDeltaCount
  rw [← hsplit]
  exact length_filter_le_one_of_nodup_map
    (fun e => (e.account_id, e.folder_id)) (a, f)
    (fun e => e.account_id == a && e.folder_id == f)
    (fun x hx => by
      simp only [Bool.and_eq_true, beq_iff_eq] at hx
      show (x.account_id, x.folder_id) = (a, f)
      rw [hx.1, hx.2])
    (db.deltaLinks.filter (fun e => e.is_active))
    (show ((db.deltaLinks.filter (fun e => e.is_active)).map
        (fun e => (e.account_id, e.folder_id))).Nodup from h)

/-- save_delta_link leaves every prior row of the saved pair deactivated. -/
theorem save_delta_link_deactivates_prior (db : MailDB) (dl : DeltaLink) :
    ∀ e ∈ (save_delta_link db dl).deltaLinks.dropLast,
      e.account_id = dl.account_id → e.folder_id = dl.folder_id →
      e.is_active = false := by
  intro e he hacc hfold
  have hdrop : (save_delta_link db dl).deltaLinks.dropLast
      = db.deltaLinks.map (fun x =>
          if x.account_id == dl.account_id && x.folder_id == dl.folder_id
              && x.is_active
          then { x with is_active := false } else x) := by
    show (List.map _ db.deltaLinks ++ [dl]).dropLast = _
    simp
  rw [hdrop] at he
  obtain ⟨x, hx, hex⟩ := List.mem_map.mp he
  by_cases hmatch : (x.account_id == dl.account_id
      && x.folder_id == dl.folder_id && x.is_active) = true
  · rw [if_pos hmatch] at hex
    rw [← hex]
  · rw [if_neg hmatch] at hex
    subst hex
    cases hx2 : x.is_active
    · rfl
    · exact absurd (by simp [hacc, hfold, hx2]) hmatch

/-- Claim C2: for every (account_id, folder_id) pair, at most one DeltaLink
with is_active=true exists at any time: the invariant is preserved across any
sequence of mail calls, save_delta_link itself preserves it, and within the
single save_delta_link operation all prior rows of the pair end deactivated
while the new row is inserted. -/
theorem delta_link_single_active (calls : List MailCall) (db : MailDB)
    (dl : DeltaLink) (h : DeltaActiveInv db) :
    DeltaActiveInv (runMailCalls calls db)
    ∧ (∀ a f, activeDeltaCount (runMailCalls calls db) a f ≤ 1)
    ∧ DeltaActiveInv (save_delta_link db dl)
    ∧ (∀ e ∈ (save_delta_link db dl).deltaLinks.dropLast,
        e.account_id = dl.account_id → e.folder_id = dl.folder_id →
        e.is_active = false) := by
  have hinv : DeltaActiveInv (runMailCalls calls db) := by
    refine foldl_preserve DeltaActiveInv runMailCall ?_ calls db h
    intro s c hs
    cases c with
    | queryCall env aid dir =>
      show (activeDeltaKeys (query_mails env aid dir s).1).Nodup
      rw [activeDeltaKeys_query_mails]
      exact hs
    | deltaCall env aid folder => exact sync_delta_mails_delta_inv env aid folder s hs
  exact ⟨hinv, fun a f => activeDeltaCount_le_one _ hinv a f,
         save_delta_link_active_inv db dl h,
         save_delta_link_deactivates_prior db dl⟩

/-- Witness for C2: running the demo calls twice saves delta links while the
invariant holds, and a direct save on a concrete state keeps one active row. -/
theorem delta_link_single_active_witness :
    DeltaActiveInv emptyMailDB
    ∧ DeltaActiveInv (runMailCalls demoCalls emptyMailDB)
    ∧ activeDeltaCount (runMailCalls demoCalls emptyMailDB) "a1" "Inbox" ≤ 1
    ∧ DeltaActiveInv (save_delta_link emptyMailDB dlFix)
    ∧ ((save_delta_link (runMailCalls demoCalls emptyMailDB) dlFix).deltaLinks.filter
        (fun e => e.is_active)).length = 1
    ∧ (runMailCalls demoCalls emptyMailDB).deltaLinks.length = 1 := by
  have hmain := delta_link_single_active demoCalls emptyMailDB dlFix
    (by simp [DeltaActiveInv, activeDeltaKeys, emptyMailDB])
  exact ⟨by simp [DeltaActiveInv, activeDeltaKeys, emptyMailDB],
         hmain.1, hmain.2.1 "a1" "Inbox", hmain.2.2.1, by decide, by decide⟩

end GraphAPIQuery
